import Mathlib

/-!
Shallow embedding of the BuildPro construction-management backend
(`apps/api/app/...`) — the authorization layer, the resource services and
the numeric logic that the specification's claims talk about — together
with theorems settling those claims.

Modelling conventions:
* UUID primary keys are modelled as `Nat`; distinct `Nat`s stand for
  distinct UUIDs.
* The relational store is an in-memory `DB` structure of lists, one per
  table. A SQLAlchemy `query(...).filter(...).first()` becomes
  `List.find?`, `.all()` becomes `List.filter`, and a committed in-place
  ORM mutation becomes replacing the row (by primary key) in the list.
* Typed API errors (`app/core/errors.py`) and raw `HTTPException`s are
  collapsed to their error kind; `ApiError.status_code` gives the HTTP
  status each kind carries in the source.
* `created_at` / `updated_at` timestamps, display-only columns
  (names, phone numbers, ...), pagination, response shaping,
  notifications and audit logging are not modelled: no embedded
  operation's control flow reads them.
* `Decimal` / `float` arithmetic in the BOQ module is modelled over `ℚ`;
  dates are modelled as `Nat` ordinals where an operation stores them.
* JWTs are modelled by `Token`: either a payload whose signature and
  expiry verify, or an expired / malformed credential, mirroring the
  three outcomes of `decode_token`. bcrypt hashing and verification are
  parameters of `login`.
-/

/-- Error kinds raised by the source (`app/core/errors.py` plus the raw
`HTTPException`s in the route modules), identified by their class; the
aliases `UnauthorizedError = AuthenticationError` and
`ForbiddenError = PermissionDeniedError` from the source are collapsed. -/
inductive ApiError
  | authenticationError
  | invalidCredentials
  | tokenExpired
  | invalidToken
  | permissionDenied
  | notFound
  | badRequest
  deriving DecidableEq

/-- HTTP status code each error kind carries in `app/core/errors.py`. -/
def ApiError.status_code : ApiError → Nat
  | .authenticationError => 401
  | .invalidCredentials => 401
  | .tokenExpired => 401
  | .invalidToken => 401
  | .permissionDenied => 403
  | .notFound => 404
  | .badRequest => 400

/-- `MembershipStatus` enum from `app/models/organization.py`. -/
inductive MembershipStatus
  | ACTIVE
  | INVITED
  | SUSPENDED
  deriving DecidableEq

/-- `OrgRole` enum from `app/models/organization.py`. -/
inductive OrgRole
  | ORG_ADMIN
  | MEMBER
  | VIEWER
  deriving DecidableEq

/-- `ExpenseStatus` enum from `app/models/expense.py`. -/
inductive ExpenseStatus
  | PENDING
  | APPROVED
  | REJECTED
  | PAID
  deriving DecidableEq

/-- `RiskProbability` / `RiskImpact` enums from `app/models/risk.py`
(the two enums have identical members). -/
inductive RiskRank
  | VERY_LOW
  | LOW
  | MEDIUM
  | HIGH
  | VERY_HIGH
  deriving DecidableEq

/-- `RiskStatus` enum from `app/models/risk.py`. -/
inductive RiskStatus
  | IDENTIFIED
  | OPEN
  | ACTIVE
  | MONITORING
  | MITIGATED
  | CLOSED
  deriving DecidableEq

/-- `User` row (`app/models/user.py`). -/
structure User where
  id : Nat
  email : String
  password_hash : String
  is_active : Bool
  is_deleted : Bool
  deriving DecidableEq

/-- `Organization` row (`app/models/organization.py`). -/
structure Organization where
  id : Nat
  is_active : Bool
  is_deleted : Bool
  deriving DecidableEq

/-- `OrganizationMember` row (`app/models/organization.py`). -/
structure OrganizationMember where
  organization_id : Nat
  user_id : Nat
  org_role : OrgRole
  status : MembershipStatus
  deriving DecidableEq

/-- `Project` row (`app/models/project.py`). -/
structure Project where
  id : Nat
  organization_id : Nat
  manager_id : Nat
  created_by : Nat
  is_deleted : Bool
  deriving DecidableEq

/-- `ProjectMember` row with its eight capability flags
(`app/models/project.py`). -/
structure ProjectMember where
  project_id : Nat
  user_id : Nat
  role_in_project : Option String
  can_view_project : Bool
  can_post_messages : Bool
  can_upload_documents : Bool
  can_edit_tasks : Bool
  can_manage_milestones : Bool
  can_manage_risks : Bool
  can_manage_expenses : Bool
  can_approve_expenses : Bool
  deriving DecidableEq

/-- `Document` row (`app/models/document.py`), the fields read by the
embedded operations. -/
structure Document where
  id : Nat
  organization_id : Nat
  project_id : Nat
  is_deleted : Bool
  deleted_at : Option Nat
  deriving DecidableEq

/-- `TaskStatus` enum from `app/models/task.py`. -/
inductive TaskStatus
  | PENDING
  | IN_PROGRESS
  | COMPLETED
  | BLOCKED
  | CANCELLED
  deriving DecidableEq

/-- `TaskPriority` enum from `app/models/task.py`. -/
inductive TaskPriority
  | LOW
  | MEDIUM
  | HIGH
  | CRITICAL
  deriving DecidableEq

/-- `Task` row (`app/models/task.py`); named `TaskRow` because `Task`
is taken by the Lean core library. -/
structure TaskRow where
  id : Nat
  organization_id : Nat
  project_id : Nat
  name : String
  description : Option String
  status : TaskStatus
  priority : TaskPriority
  assignee_id : Option Nat
  reporter_id : Option Nat
  start_date : Option Nat
  due_date : Nat
  progress : Nat
  dependencies : List Nat
  is_deleted : Bool
  deleted_at : Option Nat
  deriving DecidableEq

/-- `MilestoneStatus` enum from `app/models/milestone.py`. -/
inductive MilestoneStatus
  | PENDING
  | ON_TRACK
  | AT_RISK
  | DELAYED
  | COMPLETED
  deriving DecidableEq

/-- `Milestone` row (`app/models/milestone.py`). -/
structure Milestone where
  id : Nat
  organization_id : Nat
  project_id : Nat
  name : String
  description : Option String
  target_date : Nat
  actual_date : Option Nat
  status : MilestoneStatus
  completion_percentage : Nat
  dependencies : List Nat
  is_deleted : Bool
  deleted_at : Option Nat
  deriving DecidableEq

/-- `Message` row (`app/models/message.py`); `project_id` is optional
(org-wide messages). -/
structure Message where
  id : Nat
  organization_id : Nat
  project_id : Option Nat
  task_id : Option Nat
  sender_id : Option Nat
  content : String
  message_type : String
  is_read : Bool
  attachments : List Nat
  is_deleted : Bool
  deleted_at : Option Nat
  deriving DecidableEq

/-- `Expense` row (`app/models/expense.py`). -/
structure Expense where
  id : Nat
  organization_id : Nat
  project_id : Nat
  description : String
  category : String
  amount : ℚ
  vendor : Option String
  expense_date : Nat
  status : ExpenseStatus
  logged_by_id : Option Nat
  approved_by_id : Option Nat
  receipt_document_id : Option Nat
  notes : Option String
  is_deleted : Bool
  deleted_at : Option Nat
  deriving DecidableEq

/-- `Risk` row (`app/models/risk.py`). -/
structure Risk where
  id : Nat
  organization_id : Nat
  project_id : Nat
  title : String
  description : String
  category : Option String
  probability : RiskRank
  impact : RiskRank
  risk_score : Nat
  status : RiskStatus
  mitigation_plan : Option String
  contingency_plan : Option String
  owner_id : Option Nat
  is_deleted : Bool
  deleted_at : Option Nat
  deriving DecidableEq

/-- `BOQHeader` row (`app/models/boq.py`); note the model has no
`is_deleted` / `deleted_at` columns. -/
structure BOQHeader where
  id : Nat
  organization_id : Nat
  project_id : Nat
  title : String
  start_date : Option Nat
  end_date : Option Nat
  currency : String
  deriving DecidableEq

/-- `BOQItem` row (`app/models/boq.py`); note the model has no
`is_deleted` / `deleted_at` columns. -/
structure BOQItem where
  id : Nat
  header_id : Nat
  organization_id : Nat
  project_id : Nat
  parent_item_id : Option Nat
  quantity : ℚ
  rate : ℚ
  budget_cost : ℚ
  weight_out_of_10 : Nat
  percent_complete : Nat
  actual_cost : ℚ
  deriving DecidableEq

/-- Claims of a decoded JWT (`app/core/security.py`): subject, unique
token identifier, declared type and expiry epoch. -/
structure TokenPayload where
  sub : Option Nat
  jti : Option String
  type : String
  exp : Option Nat
  deriving DecidableEq

/-- A presented JWT string, by decoding outcome: a payload whose
signature and expiry verify, an expired signature, or a malformed /
badly-signed credential. -/
inductive Token
  | valid (payload : TokenPayload)
  | expired
  | malformed
  deriving DecidableEq

/-- `RevokedToken` row (`app/models/revoked_token.py`). -/
structure RevokedToken where
  jti : String
  token_type : String
  user_id : Option Nat
  expires_at : Option Nat
  deriving DecidableEq

/-- The relational store: one list per table. -/
structure DB where
  users : List User
  organizations : List Organization
  organization_members : List OrganizationMember
  projects : List Project
  project_members : List ProjectMember
  documents : List Document
  tasks : List TaskRow
  milestones : List Milestone
  messages : List Message
  expenses : List Expense
  risks : List Risk
  boq_headers : List BOQHeader
  boq_items : List BOQItem
  revoked_tokens : List RevokedToken
  deriving DecidableEq

/-- Embeds `decode_token` (`app/core/security.py`): verify signature and
expiry, raising `TokenExpiredError` or `InvalidTokenError`. -/
def decode_token : Token → Except ApiError TokenPayload
  | .valid payload => .ok payload
  | .expired => .error .tokenExpired
  | .malformed => .error .invalidToken

/-- Embeds `get_current_user` (`app/api/v1/dependencies.py`). The header
parsing of `Bearer <token>` is collapsed: `none` stands for a missing or
unparseable Authorization header. Every exception in the body, including
`TokenExpiredError` and `InvalidTokenError` from `decode_token`, is
re-raised as `UnauthorizedError` (= `AuthenticationError`). -/
def get_current_user (db : DB) (tok : Option Token) : Except ApiError User :=
  match tok with
  | none => .error .authenticationError
  | some t =>
    match decode_token t with
    | .error _ => .error .authenticationError
    | .ok payload =>
      if payload.type != "access" then .error .authenticationError
      else
        match payload.sub with
        | none => .error .authenticationError
        | some user_id =>
          match db.users.find? (fun u => u.id == user_id && u.is_deleted == false) with
          | none => .error .authenticationError
          | some user => .ok user

/-- Embeds `get_current_active_user` (`app/api/v1/dependencies.py`):
raises `ForbiddenError` (= `PermissionDeniedError`, 403) when the
resolved user is inactive. -/
def get_current_active_user (db : DB) (tok : Option Token) : Except ApiError User :=
  match get_current_user db tok with
  | .error e => .error e
  | .ok current_user =>
    if current_user.is_active == false then .error .permissionDenied
    else .ok current_user

/-- The shared tail of `get_current_organization`
(`app/api/v1/dependencies.py`, lines 113-136) once `org_id` is
determined: verify an Active membership for (org_id, user), failing
`Forbidden`, then fetch the active non-deleted organization, failing
`NotFound`. -/
def resolveOrganization (db : DB) (current_user : User) (org_id : Nat) :
    Except ApiError Organization :=
  match db.organization_members.find? (fun m =>
      m.organization_id == org_id && m.user_id == current_user.id &&
      m.status == MembershipStatus.ACTIVE) with
  | none => .error .permissionDenied
  | some _ =>
    match db.organizations.find? (fun o =>
        o.id == org_id && o.is_active == true && o.is_deleted == false) with
    | none => .error .notFound
    | some organization => .ok organization

/-- Embeds `get_current_organization` (`app/api/v1/dependencies.py`).
The selector is the pre-parsed `X-Organization-ID` header (`none` when
the header is absent; the malformed-UUID branch is outside the model).
The raw `HTTPException`s with statuses 403 / 400 / 404 are mapped to the
same kinds as `ForbiddenError` / `BadRequest` / `NotFound`. -/
def get_current_organization (db : DB) (x_organization_id : Option Nat)
    (current_user : User) : Except ApiError Organization :=
  match x_organization_id with
  | some org_id => resolveOrganization db current_user org_id
  | none =>
    match db.organization_members.filter (fun m =>
        m.user_id == current_user.id && m.status == MembershipStatus.ACTIVE) with
    | [] => .error .permissionDenied
    | [membership] => resolveOrganization db current_user membership.organization_id
    | _ => .error .badRequest

/-- Embeds `get_project_or_404` (`app/api/v1/dependencies.py`). -/
def get_project_or_404 (db : DB) (organization_id project_id : Nat) :
    Except ApiError Project :=
  match db.projects.find? (fun p =>
      p.id == project_id && p.organization_id == organization_id &&
      p.is_deleted == false) with
  | none => .error .notFound
  | some project => .ok project

/-- Embeds `get_project_membership` (`app/api/v1/dependencies.py`). -/
def get_project_membership (db : DB) (project_id user_id : Nat) :
    Option ProjectMember :=
  db.project_members.find? (fun m =>
    m.project_id == project_id && m.user_id == user_id)

/-- Embeds `is_project_owner_or_manager` (`app/api/v1/dependencies.py`). -/
def is_project_owner_or_manager (project : Project) (user : User) : Bool :=
  project.manager_id == user.id || project.created_by == user.id

/-- Embeds `ensure_project_member` (`app/api/v1/dependencies.py`):
returns the explicit membership row when present, `none` for implicit
owner / manager access. -/
def ensure_project_member (db : DB) (project : Project) (user : User) :
    Except ApiError (Option ProjectMember) :=
  if is_project_owner_or_manager project user then .ok none
  else
    match get_project_membership db project.id user.id with
    | none => .error .permissionDenied
    | some membership => .ok (some membership)

/-- Embeds the dynamic `getattr(membership, permission_field, False)`
lookup of `ensure_project_permission`: each of the eight capability
column names maps to its flag, any other string to the `False` default. -/
def getPermissionAttr (m : ProjectMember) : String → Bool
  | "can_view_project" => m.can_view_project
  | "can_post_messages" => m.can_post_messages
  | "can_upload_documents" => m.can_upload_documents
  | "can_edit_tasks" => m.can_edit_tasks
  | "can_manage_milestones" => m.can_manage_milestones
  | "can_manage_risks" => m.can_manage_risks
  | "can_manage_expenses" => m.can_manage_expenses
  | "can_approve_expenses" => m.can_approve_expenses
  | _ => false

/-- Embeds `ensure_project_permission` (`app/api/v1/dependencies.py`). -/
def ensure_project_permission (db : DB) (project : Project) (user : User)
    (permission_field : String) : Except ApiError (Option ProjectMember) :=
  match ensure_project_member db project user with
  | .error e => .error e
  | .ok none => .ok none
  | .ok (some membership) =>
    if (getPermissionAttr membership permission_field) == false then
      .error .permissionDenied
    else .ok (some membership)

/-- A sample store exercising the access-control paths: user 1 manages
and created project 1 of organization 1 with no explicit membership row;
user 2 is an active organization member with no project membership;
user 3 holds a membership row on project 1 with `can_manage_risks`
false and `can_view_project` true. -/
def sampleDB : DB :=
  { users :=
      [ { id := 1, email := "m@x.io", password_hash := "h1", is_active := true, is_deleted := false }
      , { id := 2, email := "a@x.io", password_hash := "h2", is_active := true, is_deleted := false }
      , { id := 3, email := "b@x.io", password_hash := "h3", is_active := true, is_deleted := false } ]
  , organizations :=
      [ { id := 1, is_active := true, is_deleted := false } ]
  , organization_members :=
      [ { organization_id := 1, user_id := 1, org_role := .ORG_ADMIN, status := .ACTIVE }
      , { organization_id := 1, user_id := 2, org_role := .MEMBER, status := .ACTIVE }
      , { organization_id := 1, user_id := 3, org_role := .MEMBER, status := .ACTIVE } ]
  , projects :=
      [ { id := 1, organization_id := 1, manager_id := 1, created_by := 1, is_deleted := false }
      , { id := 2, organization_id := 2, manager_id := 1, created_by := 1, is_deleted := false }
      , { id := 3, organization_id := 1, manager_id := 1, created_by := 1, is_deleted := true } ]
  , project_members :=
      [ { project_id := 1, user_id := 3, role_in_project := some "Member"
        , can_view_project := true, can_post_messages := true
        , can_upload_documents := true, can_edit_tasks := false
        , can_manage_milestones := false, can_manage_risks := false
        , can_manage_expenses := false, can_approve_expenses := false } ]
  , documents := []
  , tasks := []
  , milestones := []
  , messages := []
  , expenses := []
  , risks := []
  , boq_headers := []
  , boq_items := []
  , revoked_tokens := [] }

/-- The manager user of `sampleDB`. -/
def sampleManager : User :=
  { id := 1, email := "m@x.io", password_hash := "h1", is_active := true, is_deleted := false }

/-- The membershipless organization member of `sampleDB`. -/
def sampleOutsider : User :=
  { id := 2, email := "a@x.io", password_hash := "h2", is_active := true, is_deleted := false }

/-- The explicit project member of `sampleDB`. -/
def sampleMember : User :=
  { id := 3, email := "b@x.io", password_hash := "h3", is_active := true, is_deleted := false }

/-- Project 1 of `sampleDB`. -/
def sampleProject : Project :=
  { id := 1, organization_id := 1, manager_id := 1, created_by := 1, is_deleted := false }

/-- C1: `ensure_project_permission` follows exactly the three-step order:
a manager or creator passes unconditionally with `.ok none` whatever the
membership table holds; otherwise a missing membership row fails
`Forbidden`; otherwise the row's named capability flag decides, failing
`Forbidden` when it is false and passing when it is true. -/
theorem c1_ensure_project_permission_three_step_order
    (db : DB) (project : Project) (user : User) (capability : String) :
    (is_project_owner_or_manager project user = true →
      ensure_project_permission db project user capability = .ok none) ∧
    (is_project_owner_or_manager project user = false →
      get_project_membership db project.id user.id = none →
      ensure_project_permission db project user capability =
        .error .permissionDenied) ∧
    (∀ m : ProjectMember,
      is_project_owner_or_manager project user = false →
      get_project_membership db project.id user.id = some m →
      ensure_project_permission db project user capability =
        (if getPermissionAttr m capability then .ok (some m)
         else .error .permissionDenied)) := by
  refine ⟨?_, ?_, ?_⟩
  · intro h
    simp [ensure_project_permission, ensure_project_member, h]
  · intro h hm
    simp [ensure_project_permission, ensure_project_member, h, hm]
  · intro m h hm
    by_cases hflag : getPermissionAttr m capability = true
    · simp [ensure_project_permission, ensure_project_member, h, hm, hflag]
    · simp only [Bool.not_eq_true] at hflag
      simp [ensure_project_permission, ensure_project_member, h, hm, hflag]

/-- C1 witness: on `sampleDB`, the manager (no membership row) passes
every capability, the membershipless member fails, and the explicit
member is decided by the named flag. -/
theorem c1_witness :
    ensure_project_permission sampleDB sampleProject sampleManager
      "can_manage_risks" = .ok none ∧
    ensure_project_permission sampleDB sampleProject sampleOutsider
      "can_manage_risks" = .error .permissionDenied ∧
    ensure_project_permission sampleDB sampleProject sampleMember
      "can_manage_risks" =
      (if getPermissionAttr
          { project_id := 1, user_id := 3, role_in_project := some "Member"
          , can_view_project := true, can_post_messages := true
          , can_upload_documents := true, can_edit_tasks := false
          , can_manage_milestones := false, can_manage_risks := false
          , can_manage_expenses := false, can_approve_expenses := false }
          "can_manage_risks"
       then .ok (some
          { project_id := 1, user_id := 3, role_in_project := some "Member"
          , can_view_project := true, can_post_messages := true
          , can_upload_documents := true, can_edit_tasks := false
          , can_manage_milestones := false, can_manage_risks := false
          , can_manage_expenses := false, can_approve_expenses := false })
       else .error .permissionDenied) :=
  ⟨(c1_ensure_project_permission_three_step_order sampleDB sampleProject
      sampleManager "can_manage_risks").1 (by decide),
   (c1_ensure_project_permission_three_step_order sampleDB sampleProject
      sampleOutsider "can_manage_risks").2.1 (by decide) (by decide),
   (c1_ensure_project_permission_three_step_order sampleDB sampleProject
      sampleMember "can_manage_risks").2.2 _ (by decide) (by decide)⟩

/-- C2: project resolution returns only a row matching the requested id
and the resolved organization with `is_deleted = false`, and raises
`NotFound` — never `Forbidden` — when no such row exists, so projects of
other organizations and soft-deleted projects are indistinguishable from
absent ones. -/
theorem c2_get_project_or_404_tenant_isolation
    (db : DB) (organization_id project_id : Nat) :
    (∀ p : Project, get_project_or_404 db organization_id project_id = .ok p →
      p ∈ db.projects ∧ p.id = project_id ∧
      p.organization_id = organization_id ∧ p.is_deleted = false) ∧
    ((∀ p ∈ db.projects,
        ¬(p.id = project_id ∧ p.organization_id = organization_id ∧
          p.is_deleted = false)) →
      get_project_or_404 db organization_id project_id = .error .notFound) ∧
    (∀ e : ApiError, get_project_or_404 db organization_id project_id = .error e →
      e = .notFound) := by
  refine ⟨?_, ?_, ?_⟩
  · intro p hp
    unfold get_project_or_404 at hp
    cases hfind : db.projects.find? (fun p =>
        p.id == project_id && p.organization_id == organization_id &&
        p.is_deleted == false) with
    | none => rw [hfind] at hp; exact absurd hp (by simp)
    | some q =>
      rw [hfind] at hp
      have hq : q = p := by simpa using hp
      subst hq
      have hmem := List.mem_of_find?_eq_some hfind
      have hpred := List.find?_some hfind
      simp only [Bool.and_eq_true, beq_iff_eq] at hpred
      exact ⟨hmem, hpred.1.1, hpred.1.2, hpred.2⟩
  · intro hnone
    unfold get_project_or_404
    have : db.projects.find? (fun p =>
        p.id == project_id && p.organization_id == organization_id &&
        p.is_deleted == false) = none := by
      rw [List.find?_eq_none]
      intro p hp
      have := hnone p hp
      simp only [Bool.and_eq_true, beq_iff_eq]
      intro hc
      exact this ⟨hc.1.1, hc.1.2, hc.2⟩
    rw [this]
  · intro e he
    unfold get_project_or_404 at he
    cases hfind : db.projects.find? (fun p =>
        p.id == project_id && p.organization_id == organization_id &&
        p.is_deleted == false) with
    | none => rw [hfind] at he; simpa using he.symm
    | some q => rw [hfind] at he; exact absurd he (by simp)

/-- C2 witness: on `sampleDB`, asking organization 1 for project 2 (which
belongs to organization 2) and for the soft-deleted project 3 both yield
exactly `NotFound`. -/
theorem c2_witness :
    get_project_or_404 sampleDB 1 2 = .error .notFound ∧
    get_project_or_404 sampleDB 1 3 = .error .notFound :=
  ⟨(c2_get_project_or_404_tenant_isolation sampleDB 1 2).2.1 (by decide),
   (c2_get_project_or_404_tenant_isolation sampleDB 1 3).2.1 (by decide)⟩

/-- C6: with no organization selector, resolution enumerates the
principal's Active memberships: zero fails `Forbidden`; exactly one
auto-selects that organization (returning it when it is active and
non-deleted); more than one fails `BadRequest`, never silently picking a
default. -/
theorem c6_org_auto_selection
    (db : DB) (current_user : User) :
    (db.organization_members.filter (fun m =>
        m.user_id == current_user.id && m.status == MembershipStatus.ACTIVE) = [] →
      get_current_organization db none current_user = .error .permissionDenied) ∧
    (∀ membership : OrganizationMember, ∀ organization : Organization,
      db.organization_members.filter (fun m =>
        m.user_id == current_user.id && m.status == MembershipStatus.ACTIVE) =
        [membership] →
      db.organizations.find? (fun o =>
        o.id == membership.organization_id && o.is_active == true &&
        o.is_deleted == false) = some organization →
      get_current_organization db none current_user = .ok organization) ∧
    (∀ m1 m2 : OrganizationMember, ∀ rest : List OrganizationMember,
      db.organization_members.filter (fun m =>
        m.user_id == current_user.id && m.status == MembershipStatus.ACTIVE) =
        m1 :: m2 :: rest →
      get_current_organization db none current_user = .error .badRequest) := by
  refine ⟨?_, ?_, ?_⟩
  · intro h
    simp [get_current_organization, h]
  · intro membership organization hfilter horg
    have hmem : membership ∈ db.organization_members.filter (fun m =>
        m.user_id == current_user.id && m.status == MembershipStatus.ACTIVE) := by
      rw [hfilter]; exact List.mem_singleton.mpr rfl
    rw [List.mem_filter] at hmem
    obtain ⟨hmemb, hpred⟩ := hmem
    simp only [Bool.and_eq_true, beq_iff_eq] at hpred
    have hfind : (db.organization_members.find? (fun m =>
        m.organization_id == membership.organization_id &&
        m.user_id == current_user.id &&
        m.status == MembershipStatus.ACTIVE)).isSome = true := by
      rw [List.find?_isSome]
      refine ⟨membership, hmemb, ?_⟩
      simp [hpred.1, hpred.2]
    obtain ⟨m0, hf⟩ := Option.isSome_iff_exists.mp hfind
    unfold get_current_organization
    rw [hfilter]
    show resolveOrganization db current_user membership.organization_id =
      .ok organization
    unfold resolveOrganization
    rw [hf, horg]
  · intro m1 m2 rest hfilter
    simp [get_current_organization, hfilter]

/-- C6 witness: in a store where user 9 holds zero, user 1 exactly one,
and user 2 two Active memberships, resolution without a selector yields
`Forbidden`, the single organization, and `BadRequest` respectively. -/
def multiOrgDB : DB :=
  { sampleDB with
    organizations :=
      [ { id := 1, is_active := true, is_deleted := false }
      , { id := 2, is_active := true, is_deleted := false } ]
  , organization_members :=
      [ { organization_id := 1, user_id := 1, org_role := .ORG_ADMIN, status := .ACTIVE }
      , { organization_id := 1, user_id := 2, org_role := .MEMBER, status := .ACTIVE }
      , { organization_id := 2, user_id := 2, org_role := .MEMBER, status := .ACTIVE } ] }

theorem c6_witness :
    get_current_organization multiOrgDB none
      { id := 9, email := "z@x.io", password_hash := "h", is_active := true, is_deleted := false } =
      .error .permissionDenied ∧
    get_current_organization multiOrgDB none sampleManager =
      .ok { id := 1, is_active := true, is_deleted := false } ∧
    get_current_organization multiOrgDB none sampleOutsider =
      .error .badRequest :=
  ⟨(c6_org_auto_selection multiOrgDB
      { id := 9, email := "z@x.io", password_hash := "h", is_active := true, is_deleted := false }).1
      (by decide),
   (c6_org_auto_selection multiOrgDB sampleManager).2.1
      { organization_id := 1, user_id := 1, org_role := .ORG_ADMIN, status := .ACTIVE }
      { id := 1, is_active := true, is_deleted := false } (by decide) (by decide),
   (c6_org_auto_selection multiOrgDB sampleOutsider).2.2
      { organization_id := 1, user_id := 2, org_role := .MEMBER, status := .ACTIVE }
      { organization_id := 2, user_id := 2, org_role := .MEMBER, status := .ACTIVE }
      [] (by decide)⟩

/-- A store whose only user (id 4) exists, is not soft-deleted, and is
inactive. -/
def inactiveUserDB : DB :=
  { sampleDB with
    users :=
      [ { id := 4, email := "i@x.io", password_hash := "h4", is_active := false, is_deleted := false }
      , { id := 5, email := "d@x.io", password_hash := "h5", is_active := true, is_deleted := true } ] }

/-- A well-formed unexpired access token for user 4 of `inactiveUserDB`. -/
def inactiveUserToken : Token :=
  .valid { sub := some 4, jti := some "jti-4", type := "access", exp := some 1000 }

/-- C8 counterexample: presenting a valid access token for an existing,
non-soft-deleted but inactive principal fails with `PermissionDenied`
(the 403 kind raised by `ForbiddenError`), not with
`AuthenticationError` (401) as the claim states. -/
theorem c8_counterexample :
    get_current_active_user inactiveUserDB (some inactiveUserToken) =
      .error .permissionDenied ∧
    ApiError.permissionDenied ≠ ApiError.authenticationError ∧
    ApiError.status_code .permissionDenied = 403 ∧
    ApiError.status_code .authenticationError = 401 :=
  ⟨rfl, by decide, rfl, rfl⟩

/-- C8 amended: a valid access token for an existing non-soft-deleted
principal with `is_active = false` fails with `PermissionDenied` (403),
whereas an unknown or soft-deleted principal fails with
`AuthenticationError` (401) — a different error kind. -/
theorem c8_inactive_user_error_kind
    (db : DB) (payload : TokenPayload) (user_id : Nat) :
    payload.type = "access" →
    payload.sub = some user_id →
    (∀ u : User,
      db.users.find? (fun u => u.id == user_id && u.is_deleted == false) = some u →
      u.is_active = false →
      get_current_active_user db (some (.valid payload)) = .error .permissionDenied) ∧
    (db.users.find? (fun u => u.id == user_id && u.is_deleted == false) = none →
      get_current_active_user db (some (.valid payload)) = .error .authenticationError) := by
  intro htype hsub
  constructor
  · intro u hfind hinactive
    simp only [get_current_active_user, get_current_user, decode_token, htype,
      hsub, hfind]
    simp [hinactive]
  · intro hfind
    simp only [get_current_active_user, get_current_user, decode_token, htype,
      hsub, hfind]
    simp

/-- C8 amended witness: on `inactiveUserDB`, the inactive user 4 yields
`PermissionDenied` while the unknown user 6 and the soft-deleted user 5
yield `AuthenticationError`. -/
theorem c8_witness :
    get_current_active_user inactiveUserDB (some inactiveUserToken) =
      .error .permissionDenied ∧
    get_current_active_user inactiveUserDB
      (some (.valid { sub := some 6, jti := some "jti-6", type := "access", exp := some 1000 })) =
      .error .authenticationError ∧
    get_current_active_user inactiveUserDB
      (some (.valid { sub := some 5, jti := some "jti-5", type := "access", exp := some 1000 })) =
      .error .authenticationError :=
  ⟨(c8_inactive_user_error_kind inactiveUserDB
      { sub := some 4, jti := some "jti-4", type := "access", exp := some 1000 } 4
      rfl rfl).1
      { id := 4, email := "i@x.io", password_hash := "h4", is_active := false, is_deleted := false }
      (by decide) (by decide),
   (c8_inactive_user_error_kind inactiveUserDB
      { sub := some 6, jti := some "jti-6", type := "access", exp := some 1000 } 6
      rfl rfl).2 (by decide),
   (c8_inactive_user_error_kind inactiveUserDB
      { sub := some 5, jti := some "jti-5", type := "access", exp := some 1000 } 5
      rfl rfl).2 (by decide)⟩

/-- Truth of an `Except` outcome: `true` exactly on `.ok`. -/
def isOkE {α : Type} : Except ApiError α → Bool
  | .ok _ => true
  | .error _ => false

/-- Embeds `_is_active_org_member` (`app/api/v1/routes/risks.py`): a
`None` owner passes; otherwise the owner needs an Active membership in
the organization joined to an active, non-deleted user row. -/
def _is_active_org_member (db : DB) (org_id : Nat) (user_id : Option Nat) : Bool :=
  match user_id with
  | none => true
  | some uid =>
    (db.organization_members.find? (fun m =>
      m.organization_id == org_id && m.user_id == uid &&
      m.status == MembershipStatus.ACTIVE &&
      (db.users.find? (fun u =>
        u.id == m.user_id && u.is_active == true && u.is_deleted == false)).isSome)).isSome

/-- Embeds the `prob_values` / `impact_values` tables of
`calculate_risk_score` (`app/api/v1/routes/risks.py`); the `.get(_, 3)`
default is unreachable because the enum is total. -/
def rank_value : RiskRank → Nat
  | .VERY_LOW => 1
  | .LOW => 2
  | .MEDIUM => 3
  | .HIGH => 4
  | .VERY_HIGH => 5

/-- Embeds `calculate_risk_score` (`app/api/v1/routes/risks.py`). -/
def calculate_risk_score (probability impact : RiskRank) : Nat :=
  rank_value probability * rank_value impact

/-- Python falsy `or` on an optional string: `a or b` is `b` when `a` is
`None` or empty. -/
def orElseStr (a : Option String) (b : String) : String :=
  match a with
  | none => b
  | some s => if s.isEmpty then b else s

/-- Payload of `RiskCreate` (`app/schemas/risk.py`), the fields the route
reads. -/
structure RiskCreate where
  title : String
  description : Option String
  category : Option String
  probability : RiskRank
  impact : RiskRank
  mitigation_plan : Option String
  contingency_plan : Option String
  owner_id : Option Nat
  deriving DecidableEq

/-- Embeds `create_risk` (`app/api/v1/routes/risks.py`): resolve the
tenant-scoped project, validate the optional owner, compute the score,
insert the row with status Open; `newId` is the id the store assigns.
Note the route performs no `ensure_project_permission` check — the
acting user is never consulted beyond the already-resolved context. -/
def create_risk (db : DB) (org : Organization) (_user : User)
    (project_id : Nat) (risk_data : RiskCreate) (newId : Nat) :
    Except ApiError (DB × Risk) :=
  match db.projects.find? (fun p =>
      p.id == project_id && p.organization_id == org.id &&
      p.is_deleted == false) with
  | none => .error .notFound
  | some _ =>
    if _is_active_org_member db org.id risk_data.owner_id == false then
      .error .badRequest
    else
      let risk : Risk :=
        { id := newId, organization_id := org.id, project_id := project_id
        , title := risk_data.title
        , description := orElseStr risk_data.description risk_data.title
        , category := risk_data.category
        , probability := risk_data.probability, impact := risk_data.impact
        , risk_score := calculate_risk_score risk_data.probability risk_data.impact
        , status := RiskStatus.OPEN
        , mitigation_plan := risk_data.mitigation_plan
        , contingency_plan := risk_data.contingency_plan
        , owner_id := risk_data.owner_id
        , is_deleted := false, deleted_at := none }
      .ok ({ db with risks := db.risks ++ [risk] }, risk)

/-- Embeds `delete_risk` (`app/api/v1/routes/risks.py`): tenant-scoped
lookup, then soft delete (`is_deleted := true`, `deleted_at := now`).
Note the route performs no `ensure_project_permission` check. -/
def delete_risk (db : DB) (org : Organization) (_user : User)
    (project_id risk_id now : Nat) : Except ApiError DB :=
  match db.risks.find? (fun r =>
      r.id == risk_id && r.project_id == project_id &&
      r.organization_id == org.id && r.is_deleted == false) with
  | none => .error .notFound
  | some risk =>
    let risk' := { risk with is_deleted := true, deleted_at := some now }
    .ok { db with
      risks := db.risks.map (fun r => if r.id == risk.id then risk' else r) }

/-- An open risk (id 9) on project 1. -/
def sampleRisk : Risk :=
  { id := 9, organization_id := 1, project_id := 1, title := "t"
  , description := "d", category := none
  , probability := .HIGH, impact := .HIGH, risk_score := 16
  , status := .OPEN, mitigation_plan := none, contingency_plan := none
  , owner_id := none, is_deleted := false, deleted_at := none }

/-- `sampleDB` extended with one open risk on project 1. -/
def riskOpsDB : DB := { sampleDB with risks := [sampleRisk] }

/-- A well-formed risk-creation payload with no owner. -/
def sampleRiskCreate : RiskCreate :=
  { title := "New risk", description := none, category := some "Financial"
  , probability := .HIGH, impact := .HIGH
  , mitigation_plan := none, contingency_plan := none, owner_id := none }

/-- C3 (code bug): the risk routes enforce no project capability. On
`riskOpsDB`, user 2 is neither manager nor creator of project 1 and
holds no ProjectMembership row, so `ensure_project_permission` for
`can_manage_risks` denies with `Forbidden`; yet `create_risk` and
`delete_risk` both succeed for that user — no risk route ever consults
`ensure_project_permission`, contradicting the claim. -/
theorem c3_risk_routes_skip_permission_check :
    is_project_owner_or_manager sampleProject sampleOutsider = false ∧
    get_project_membership riskOpsDB sampleProject.id sampleOutsider.id = none ∧
    ensure_project_permission riskOpsDB sampleProject sampleOutsider
      "can_manage_risks" = .error .permissionDenied ∧
    isOkE (create_risk riskOpsDB { id := 1, is_active := true, is_deleted := false }
      sampleOutsider 1 sampleRiskCreate 50) = true ∧
    isOkE (delete_risk riskOpsDB { id := 1, is_active := true, is_deleted := false }
      sampleOutsider 1 9 777) = true :=
  ⟨rfl, rfl, rfl, rfl, rfl⟩

/-- Embeds `_validate_receipt_document` (`app/api/v1/routes/expenses.py`):
a `None` receipt passes; otherwise the document must exist, non-deleted,
in the same organization and project, else `BadRequest`. -/
def _validate_receipt_document (db : DB) (org_id project_id : Nat)
    (receipt_document_id : Option Nat) : Except ApiError Unit :=
  match receipt_document_id with
  | none => .ok ()
  | some rid =>
    match db.documents.find? (fun d =>
        d.id == rid && d.organization_id == org_id &&
        d.project_id == project_id && d.is_deleted == false) with
    | none => .error .badRequest
    | some _ => .ok ()

/-- Payload of `ExpenseUpdate` (`app/schemas/expense.py`) under
`exclude_unset` semantics: `some v` means the field was present in the
request body. Explicit JSON nulls are modelled only for
`receipt_document_id`, the one optional field whose mere presence
changes control flow. -/
structure ExpenseUpdateData where
  description : Option String := none
  category : Option String := none
  amount : Option ℚ := none
  vendor : Option String := none
  expense_date : Option Nat := none
  receipt_document_id : Option (Option Nat) := none
  notes : Option String := none
  deriving DecidableEq

/-- The `setattr` loop of `update_expense` applied to the set fields. -/
def applyExpenseUpdate (e : Expense) (u : ExpenseUpdateData) : Expense :=
  { e with
    description := u.description.getD e.description
  , category := u.category.getD e.category
  , amount := u.amount.getD e.amount
  , vendor := match u.vendor with | some v => some v | none => e.vendor
  , expense_date := u.expense_date.getD e.expense_date
  , receipt_document_id := match u.receipt_document_id with
      | some r => r
      | none => e.receipt_document_id
  , notes := match u.notes with | some n => some n | none => e.notes }

/-- Committing an in-place ORM mutation of one expense row: the row with
the same primary key is replaced in the store. -/
def commitExpense (db : DB) (e' : Expense) : DB :=
  { db with expenses := db.expenses.map (fun e => if e.id == e'.id then e' else e) }

/-- The tenant-scoped expense lookup repeated verbatim in every expense
route (`app/api/v1/routes/expenses.py`). -/
def findExpense (db : DB) (org_id project_id expense_id : Nat) : Option Expense :=
  db.expenses.find? (fun e =>
    e.id == expense_id && e.project_id == project_id &&
    e.organization_id == org_id && e.is_deleted == false)

/-- Embeds `update_expense` (`PUT`, `app/api/v1/routes/expenses.py`):
project resolution, the `can_manage_expenses` capability, tenant-scoped
lookup, the only-Pending guard, receipt validation when the field is
present, then the field update. -/
def update_expense (db : DB) (org : Organization) (user : User)
    (project_id expense_id : Nat) (expense_data : ExpenseUpdateData) :
    Except ApiError (DB × Expense) :=
  match get_project_or_404 db org.id project_id with
  | .error e => .error e
  | .ok project =>
    match ensure_project_permission db project user "can_manage_expenses" with
    | .error e => .error e
    | .ok _ =>
      match findExpense db org.id project_id expense_id with
      | none => .error .notFound
      | some expense =>
        if expense.status != ExpenseStatus.PENDING then .error .badRequest
        else
          match expense_data.receipt_document_id with
          | some rid =>
            (match _validate_receipt_document db org.id project_id rid with
             | .error e => .error e
             | .ok _ =>
               let expense' := applyExpenseUpdate expense expense_data
               .ok (commitExpense db expense', expense'))
          | none =>
            let expense' := applyExpenseUpdate expense expense_data
            .ok (commitExpense db expense', expense')

/-- Embeds `approve_expense` (`PATCH .../approve`): the
`can_approve_expenses` capability, the only-Pending guard, then sets
status Approved and `approved_by_id` to the acting principal, appending
approval notes when the (Python-truthy) notes field is non-empty. -/
def approve_expense (db : DB) (org : Organization) (user : User)
    (project_id expense_id : Nat) (approve_notes : Option String) :
    Except ApiError (DB × Expense) :=
  match get_project_or_404 db org.id project_id with
  | .error e => .error e
  | .ok project =>
    match ensure_project_permission db project user "can_approve_expenses" with
    | .error e => .error e
    | .ok _ =>
      match findExpense db org.id project_id expense_id with
      | none => .error .notFound
      | some expense =>
        if expense.status != ExpenseStatus.PENDING then .error .badRequest
        else
          let expense' : Expense :=
            { expense with
              status := ExpenseStatus.APPROVED
            , approved_by_id := some user.id
            , notes := match approve_notes with
                | some n =>
                  if n.isEmpty then expense.notes
                  else some ((expense.notes.getD "") ++ "\nApproval notes: " ++ n)
                | none => expense.notes }
          .ok (commitExpense db expense', expense')

/-- Embeds `reject_expense` (`PATCH .../reject`): the
`can_approve_expenses` capability, the only-Pending guard, then sets
status Rejected, `approved_by_id` to the acting principal, and appends
the mandatory rejection reason. -/
def reject_expense (db : DB) (org : Organization) (user : User)
    (project_id expense_id : Nat) (reject_notes : String) :
    Except ApiError (DB × Expense) :=
  match get_project_or_404 db org.id project_id with
  | .error e => .error e
  | .ok project =>
    match ensure_project_permission db project user "can_approve_expenses" with
    | .error e => .error e
    | .ok _ =>
      match findExpense db org.id project_id expense_id with
      | none => .error .notFound
      | some expense =>
        if expense.status != ExpenseStatus.PENDING then .error .badRequest
        else
          let expense' : Expense :=
            { expense with
              status := ExpenseStatus.REJECTED
            , approved_by_id := some user.id
            , notes := some ((expense.notes.getD "") ++ "\nRejection reason: " ++ reject_notes) }
          .ok (commitExpense db expense', expense')

/-- Embeds `delete_expense` (`DELETE`): the `can_manage_expenses`
capability, then soft delete (`is_deleted := true`, `deleted_at := now`). -/
def delete_expense (db : DB) (org : Organization) (user : User)
    (project_id expense_id now : Nat) : Except ApiError DB :=
  match get_project_or_404 db org.id project_id with
  | .error e => .error e
  | .ok project =>
    match ensure_project_permission db project user "can_manage_expenses" with
    | .error e => .error e
    | .ok _ =>
      match findExpense db org.id project_id expense_id with
      | none => .error .notFound
      | some expense =>
        let expense' := { expense with is_deleted := true, deleted_at := some now }
        .ok (commitExpense db expense')

/-- Replacing, by key, exactly the row that `find?` returned yields a
store where the same query finds the replacement, provided the
replacement still satisfies the predicate. -/
theorem find?_map_replace {α : Type} (key : α → Nat) (l : List α)
    (p : α → Bool) (a b : α) (hfind : l.find? p = some a)
    (hkey : key b = key a) (hb : p b = true) :
    (l.map (fun x => if key x == key b then b else x)).find? p = some b := by
  induction l with
  | nil => simp at hfind
  | cons x xs ih =>
    by_cases hx : p x = true
    · have hxa : x = a := by
        rw [List.find?_cons_of_pos _ hx] at hfind
        exact Option.some.inj hfind
      subst hxa
      simp only [List.map_cons]
      rw [show (if key x == key b then b else x) = b by simp [hkey]]
      exact List.find?_cons_of_pos _ hb
    · rw [List.find?_cons_of_neg _ hx] at hfind
      simp only [List.map_cons]
      by_cases hkb : (key x == key b) = true
      · rw [show (if key x == key b then b else x) = b by simp [hkb]]
        exact List.find?_cons_of_pos _ hb
      · rw [show (if key x == key b then b else x) = x by simp [hkb]]
        rw [List.find?_cons_of_neg _ hx]
        exact ih hfind

/-- The row `approve_expense` writes from a Pending `expense`
(`app/api/v1/routes/expenses.py`, lines 384-387). -/
def approvedExpense (expense : Expense) (user : User) (anotes : Option String) :
    Expense :=
  { expense with
    status := ExpenseStatus.APPROVED
  , approved_by_id := some user.id
  , notes := match anotes with
      | some n =>
        if n.isEmpty then expense.notes
        else some ((expense.notes.getD "") ++ "\nApproval notes: " ++ n)
      | none => expense.notes }

/-- Once the Pending row has been replaced by a row that is no longer
Pending (same key, same tenant scope, still not soft-deleted), update,
approve and reject all fail `BadRequest` on the resulting store. -/
theorem expense_ops_locked
    (db : DB) (org : Organization) (user : User) (project : Project)
    (mgr apr : Option ProjectMember) (project_id expense_id : Nat)
    (expense e' : Expense) (udata : ExpenseUpdateData)
    (anotes : Option String) (rnotes : String)
    (hproj : get_project_or_404 db org.id project_id = .ok project)
    (hmanage : ensure_project_permission db project user "can_manage_expenses" = .ok mgr)
    (happrove : ensure_project_permission db project user "can_approve_expenses" = .ok apr)
    (hfind : findExpense db org.id project_id expense_id = some expense)
    (hid : e'.id = expense.id) (hpr : e'.project_id = expense.project_id)
    (hor : e'.organization_id = expense.organization_id)
    (hdel : e'.is_deleted = expense.is_deleted)
    (hstat : e'.status ≠ ExpenseStatus.PENDING) :
    approve_expense (commitExpense db e') org user project_id expense_id anotes =
      .error .badRequest ∧
    reject_expense (commitExpense db e') org user project_id expense_id rnotes =
      .error .badRequest ∧
    update_expense (commitExpense db e') org user project_id expense_id udata =
      .error .badRequest := by
  have hfind0 : db.expenses.find? (fun e =>
      e.id == expense_id && e.project_id == project_id &&
      e.organization_id == org.id && e.is_deleted == false) = some expense := hfind
  have hpred := List.find?_some hfind0
  have hb : (fun e : Expense => e.id == expense_id && e.project_id == project_id &&
      e.organization_id == org.id && e.is_deleted == false) e' = true := by
    show (e'.id == expense_id && e'.project_id == project_id &&
      e'.organization_id == org.id && e'.is_deleted == false) = true
    rw [hid, hpr, hor, hdel]
    exact hpred
  have hproj2 : get_project_or_404 (commitExpense db e') org.id project_id =
      .ok project := hproj
  have hmanage2 : ensure_project_permission (commitExpense db e') project user
      "can_manage_expenses" = .ok mgr := hmanage
  have happrove2 : ensure_project_permission (commitExpense db e') project user
      "can_approve_expenses" = .ok apr := happrove
  have hfind2raw : (db.expenses.map (fun x => if x.id == e'.id then e' else x)).find?
      (fun e => e.id == expense_id && e.project_id == project_id &&
        e.organization_id == org.id && e.is_deleted == false) = some e' :=
    find?_map_replace (fun e => e.id) db.expenses _ expense e' hfind0 hid hb
  have hfind2 : findExpense (commitExpense db e') org.id project_id expense_id =
      some e' := hfind2raw
  refine ⟨?_, ?_, ?_⟩
  · simp [approve_expense, hproj2, happrove2, hfind2, hstat]
  · simp [reject_expense, hproj2, happrove2, hfind2, hstat]
  · simp [update_expense, hproj2, hmanage2, hfind2, hstat]

/-- C4: while an expense is not Pending, update, approve and reject all
fail `BadRequest`; approving a Pending expense succeeds, setting status
Approved and `approved_by_id` to the acting principal; on the resulting
store a second approve, a reject and an update all fail `BadRequest`, so
`approved_by_id` is assigned exactly once. -/
theorem c4_expense_state_machine
    (db : DB) (org : Organization) (user : User) (project : Project)
    (mgr apr : Option ProjectMember)
    (project_id expense_id : Nat) (expense : Expense)
    (udata : ExpenseUpdateData) (anotes : Option String) (rnotes : String)
    (hproj : get_project_or_404 db org.id project_id = .ok project)
    (hmanage : ensure_project_permission db project user "can_manage_expenses" = .ok mgr)
    (happrove : ensure_project_permission db project user "can_approve_expenses" = .ok apr)
    (hfind : findExpense db org.id project_id expense_id = some expense) :
    (expense.status ≠ ExpenseStatus.PENDING →
      update_expense db org user project_id expense_id udata = .error .badRequest ∧
      approve_expense db org user project_id expense_id anotes = .error .badRequest ∧
      reject_expense db org user project_id expense_id rnotes = .error .badRequest) ∧
    (expense.status = ExpenseStatus.PENDING →
      ∃ db' expense',
        approve_expense db org user project_id expense_id anotes = .ok (db', expense') ∧
        expense'.status = ExpenseStatus.APPROVED ∧
        expense'.approved_by_id = some user.id ∧
        approve_expense db' org user project_id expense_id anotes = .error .badRequest ∧
        reject_expense db' org user project_id expense_id rnotes = .error .badRequest ∧
        update_expense db' org user project_id expense_id udata = .error .badRequest) := by
  constructor
  · intro hnp
    refine ⟨?_, ?_, ?_⟩
    · simp [update_expense, hproj, hmanage, hfind, hnp]
    · simp [approve_expense, hproj, happrove, hfind, hnp]
    · simp [reject_expense, hproj, happrove, hfind, hnp]
  · intro hp
    have hlocked := expense_ops_locked db org user project mgr apr
      project_id expense_id expense (approvedExpense expense user anotes)
      udata anotes rnotes hproj hmanage happrove hfind rfl rfl rfl rfl
      (by simp [approvedExpense])
    refine ⟨commitExpense db (approvedExpense expense user anotes),
      approvedExpense expense user anotes,
      ?_, rfl, rfl, hlocked.1, hlocked.2.1, hlocked.2.2⟩
    simp [approve_expense, approvedExpense, hproj, happrove, hfind, hp]

/-- Organization 1 of `sampleDB`. -/
def sampleOrg : Organization := { id := 1, is_active := true, is_deleted := false }

/-- A Pending expense on project 1, logged by user 1. -/
def pendingExpense : Expense :=
  { id := 1, organization_id := 1, project_id := 1, description := "cement"
  , category := "Materials", amount := 100, vendor := none, expense_date := 10
  , status := .PENDING, logged_by_id := some 1, approved_by_id := none
  , receipt_document_id := none, notes := none
  , is_deleted := false, deleted_at := none }

/-- `sampleDB` extended with one Pending expense. -/
def expenseDB : DB := { sampleDB with expenses := [pendingExpense] }

/-- C4 witness: on `expenseDB`, the manager approves the Pending expense
(setting `approved_by_id`), after which approve, reject and update all
fail `BadRequest`. -/
theorem c4_witness :
    ∃ db' expense',
      approve_expense expenseDB sampleOrg sampleManager 1 1 (some "ok") =
        .ok (db', expense') ∧
      expense'.status = ExpenseStatus.APPROVED ∧
      expense'.approved_by_id = some sampleManager.id ∧
      approve_expense db' sampleOrg sampleManager 1 1 (some "ok") =
        .error .badRequest ∧
      reject_expense db' sampleOrg sampleManager 1 1 "no" = .error .badRequest ∧
      update_expense db' sampleOrg sampleManager 1 1 {} = .error .badRequest :=
  (c4_expense_state_machine expenseDB sampleOrg sampleManager sampleProject
    none none 1 1 pendingExpense {} (some "ok") "no"
    rfl rfl rfl rfl).2 rfl

/-- Embeds `_leaf_items` (`app/api/v1/routes/boq.py`): collect the
non-null `parent_item_id`s declared in the list, then keep the items
whose id is not among them. -/
def _leaf_items (items : List BOQItem) : List BOQItem :=
  let parent_ids := items.filterMap (fun item => item.parent_item_id)
  items.filter (fun item => !(parent_ids.contains item.id))

/-- Embeds `_compute_weighted_completion` (`app/api/v1/routes/boq.py`)
over `ℚ`: zero leaves give `0`; a zero weight sum falls back to the
unweighted mean of `percent_complete` over the leaves (the source
divides by `max(len(leaves), 1)`); otherwise the weighted fraction sum
over the weight sum, times 100. -/
def _compute_weighted_completion (items : List BOQItem) : ℚ :=
  let leaves := _leaf_items items
  if leaves.isEmpty then 0
  else
    let total_weight := leaves.foldl
      (fun acc item => acc + (item.weight_out_of_10 : ℚ) / 10) 0
    let weighted_sum := leaves.foldl
      (fun acc item => acc +
        ((item.weight_out_of_10 : ℚ) / 10) * ((item.percent_complete : ℚ) / 100)) 0
    if total_weight ≤ 0 then
      (leaves.foldl (fun acc item => acc + (item.percent_complete : ℚ)) 0) /
        ((max leaves.length 1 : Nat) : ℚ)
    else (weighted_sum / total_weight) * 100

/-- Embeds `_get_or_create_header` (`app/api/v1/routes/boq.py`): reuse
the project's existing header if any, overwriting its metadata and
physically deleting all its items
(`db.query(BOQItem).filter(header_id == header.id).delete()`); otherwise
insert a fresh header with id `newId`. -/
def _get_or_create_header (db : DB) (org_id project_id : Nat) (title : String)
    (start_date end_date : Option Nat) (currency : String) (newId : Nat) :
    DB × BOQHeader :=
  match db.boq_headers.find? (fun h =>
      h.organization_id == org_id && h.project_id == project_id) with
  | some header =>
    let header' := { header with
      title := title, start_date := start_date, end_date := end_date
    , currency := currency }
    ({ db with
        boq_headers := db.boq_headers.map (fun h =>
          if h.id == header.id then header' else h)
      , boq_items := db.boq_items.filter (fun i =>
          !(i.header_id == header.id)) }, header')
  | none =>
    let header : BOQHeader :=
      { id := newId, organization_id := org_id, project_id := project_id
      , title := title, start_date := start_date, end_date := end_date
      , currency := currency }
    ({ db with boq_headers := db.boq_headers ++ [header] }, header)

/-- A left fold accumulating `+ f x` from `init` is `init` plus the sum
of the mapped list. -/
theorem foldl_add_eq_sum {α : Type} (f : α → ℚ) (l : List α) (init : ℚ) :
    l.foldl (fun acc x => acc + f x) init = init + (l.map f).sum := by
  induction l generalizing init with
  | nil => simp
  | cons x xs ih =>
    simp only [List.foldl_cons, List.map_cons, List.sum_cons, ih]
    ring

/-- The two-leaf example from the claim: weights 10 and 0, percents 100
and 50. -/
def boqLeafPair : List BOQItem :=
  [ { id := 1, header_id := 1, organization_id := 1, project_id := 1
    , parent_item_id := none, quantity := 0, rate := 0, budget_cost := 0
    , weight_out_of_10 := 10, percent_complete := 100, actual_cost := 0 }
  , { id := 2, header_id := 1, organization_id := 1, project_id := 1
    , parent_item_id := none, quantity := 0, rate := 0, budget_cost := 0
    , weight_out_of_10 := 0, percent_complete := 50, actual_cost := 0 } ]

/-- Three all-zero-weight leaves with percents 20, 80, 50 (mean 50). -/
def boqAllZero : List BOQItem :=
  [ { id := 1, header_id := 1, organization_id := 1, project_id := 1
    , parent_item_id := none, quantity := 0, rate := 0, budget_cost := 0
    , weight_out_of_10 := 0, percent_complete := 20, actual_cost := 0 }
  , { id := 2, header_id := 1, organization_id := 1, project_id := 1
    , parent_item_id := none, quantity := 0, rate := 0, budget_cost := 0
    , weight_out_of_10 := 0, percent_complete := 80, actual_cost := 0 }
  , { id := 3, header_id := 1, organization_id := 1, project_id := 1
    , parent_item_id := none, quantity := 0, rate := 0, budget_cost := 0
    , weight_out_of_10 := 0, percent_complete := 50, actual_cost := 0 } ]

/-- C5: an item is a leaf iff no item of the list declares it as parent;
project weighted completion is 100 times the leaf sum of
(weight/10)·(percent/100) over the leaf sum of weight/10; a zero weight
sum falls back to the unweighted mean of the leaf percents; zero leaves
give 0. In particular leaves (10,100),(0,50) yield exactly 100, and
all-zero-weight leaves with percents 20, 80, 50 yield their mean 50. -/
theorem c5_boq_weighted_completion (items : List BOQItem) :
    (∀ item : BOQItem, item ∈ _leaf_items items ↔
      (item ∈ items ∧ ∀ other ∈ items, other.parent_item_id ≠ some item.id)) ∧
    (_leaf_items items = [] → _compute_weighted_completion items = 0) ∧
    (((_leaf_items items).map (fun i => (i.weight_out_of_10 : ℚ) / 10)).sum ≠ 0 →
      _compute_weighted_completion items =
        100 * ((_leaf_items items).map (fun i =>
          ((i.weight_out_of_10 : ℚ) / 10) * ((i.percent_complete : ℚ) / 100))).sum /
          ((_leaf_items items).map (fun i => (i.weight_out_of_10 : ℚ) / 10)).sum) ∧
    (((_leaf_items items).map (fun i => (i.weight_out_of_10 : ℚ) / 10)).sum = 0 →
      _leaf_items items ≠ [] →
      _compute_weighted_completion items =
        ((_leaf_items items).map (fun i => (i.percent_complete : ℚ))).sum /
          ((_leaf_items items).length : ℚ)) ∧
    _compute_weighted_completion boqLeafPair = 100 ∧
    _compute_weighted_completion boqAllZero = 50 := by
  have hfoldW : (_leaf_items items).foldl
      (fun acc item => acc + (item.weight_out_of_10 : ℚ) / 10) 0 =
      ((_leaf_items items).map (fun i => (i.weight_out_of_10 : ℚ) / 10)).sum := by
    rw [foldl_add_eq_sum]; ring
  have hfoldS : (_leaf_items items).foldl
      (fun acc item => acc +
        ((item.weight_out_of_10 : ℚ) / 10) * ((item.percent_complete : ℚ) / 100)) 0 =
      ((_leaf_items items).map (fun i =>
        ((i.weight_out_of_10 : ℚ) / 10) * ((i.percent_complete : ℚ) / 100))).sum := by
    rw [foldl_add_eq_sum]; ring
  have hfoldP : (_leaf_items items).foldl
      (fun acc item => acc + (item.percent_complete : ℚ)) 0 =
      ((_leaf_items items).map (fun i => (i.percent_complete : ℚ))).sum := by
    rw [foldl_add_eq_sum]; ring
  have hWnonneg : 0 ≤ ((_leaf_items items).map
      (fun i => (i.weight_out_of_10 : ℚ) / 10)).sum := by
    apply List.sum_nonneg
    intro x hx
    rw [List.mem_map] at hx
    obtain ⟨i, _, rfl⟩ := hx
    positivity
  refine ⟨?_, ?_, ?_, ?_,
    by norm_num [_compute_weighted_completion, _leaf_items, boqLeafPair],
    by norm_num [_compute_weighted_completion, _leaf_items, boqAllZero]⟩
  · intro item
    show item ∈ items.filter (fun item =>
      !((items.filterMap (fun item => item.parent_item_id)).contains item.id)) ↔ _
    rw [List.mem_filter]
    constructor
    · rintro ⟨hmem, hflag⟩
      refine ⟨hmem, ?_⟩
      intro other homem hdecl
      rw [Bool.not_eq_true', ← Bool.not_eq_true] at hflag
      apply hflag
      rw [List.contains_iff_exists_mem_beq]
      refine ⟨item.id, ?_, by simp⟩
      rw [List.mem_filterMap]
      exact ⟨other, homem, hdecl⟩
    · rintro ⟨hmem, hnone⟩
      refine ⟨hmem, ?_⟩
      rw [Bool.not_eq_true', ← Bool.not_eq_true]
      intro hcontains
      rw [List.contains_iff_exists_mem_beq] at hcontains
      obtain ⟨b, hb, hbeq⟩ := hcontains
      rw [List.mem_filterMap] at hb
      obtain ⟨other, homem, hdecl⟩ := hb
      rw [beq_iff_eq] at hbeq
      subst hbeq
      exact hnone other homem hdecl
  · intro h
    simp [_compute_weighted_completion, h]
  · intro hW
    have hne : _leaf_items items ≠ [] := by
      intro h0
      apply hW
      rw [h0]; simp
    have hWpos : ¬(((_leaf_items items).map
        (fun i => (i.weight_out_of_10 : ℚ) / 10)).sum ≤ 0) :=
      fun hle => hW (le_antisymm hle hWnonneg)
    show (if (_leaf_items items).isEmpty then (0 : ℚ)
      else if (_leaf_items items).foldl
          (fun acc item => acc + (item.weight_out_of_10 : ℚ) / 10) 0 ≤ 0 then
        ((_leaf_items items).foldl (fun acc item => acc + (item.percent_complete : ℚ)) 0) /
          ((max (_leaf_items items).length 1 : Nat) : ℚ)
      else ((_leaf_items items).foldl
          (fun acc item => acc +
            ((item.weight_out_of_10 : ℚ) / 10) * ((item.percent_complete : ℚ) / 100)) 0 /
          (_leaf_items items).foldl
            (fun acc item => acc + (item.weight_out_of_10 : ℚ) / 10) 0) * 100) = _
    rw [hfoldW, hfoldS]
    rw [if_neg (by rw [List.isEmpty_iff]; exact hne), if_neg hWpos]
    ring
  · intro hW hne
    show (if (_leaf_items items).isEmpty then (0 : ℚ)
      else if (_leaf_items items).foldl
          (fun acc item => acc + (item.weight_out_of_10 : ℚ) / 10) 0 ≤ 0 then
        ((_leaf_items items).foldl (fun acc item => acc + (item.percent_complete : ℚ)) 0) /
          ((max (_leaf_items items).length 1 : Nat) : ℚ)
      else ((_leaf_items items).foldl
          (fun acc item => acc +
            ((item.weight_out_of_10 : ℚ) / 10) * ((item.percent_complete : ℚ) / 100)) 0 /
          (_leaf_items items).foldl
            (fun acc item => acc + (item.weight_out_of_10 : ℚ) / 10) 0) * 100) = _
    rw [hfoldW, hfoldP]
    rw [if_neg (by rw [List.isEmpty_iff]; exact hne), if_pos (le_of_eq hW)]
    have hlen : max (_leaf_items items).length 1 = (_leaf_items items).length :=
      Nat.max_eq_left (Nat.one_le_iff_ne_zero.mpr
        (fun h0 => hne (List.length_eq_zero.mp h0)))
    rw [hlen]

/-- C5 witness: zero leaves give 0, and the all-zero-weight list falls
back to the unweighted mean of its leaf percents. -/
theorem c5_witness :
    _compute_weighted_completion ([] : List BOQItem) = 0 ∧
    _compute_weighted_completion boqAllZero =
      ((_leaf_items boqAllZero).map (fun i => (i.percent_complete : ℚ))).sum /
        ((_leaf_items boqAllZero).length : ℚ) :=
  ⟨(c5_boq_weighted_completion []).2.1 rfl,
   (c5_boq_weighted_completion boqAllZero).2.2.2.1
     (by norm_num [_leaf_items, boqAllZero])
     (by simp [_leaf_items, boqAllZero])⟩

/-- A BOQ header (id 5) for project 1. -/
def sampleBOQHeader : BOQHeader :=
  { id := 5, organization_id := 1, project_id := 1, title := "Old BOQ"
  , start_date := none, end_date := none, currency := "UGX" }

/-- A BOQ item (id 7) under header 5. -/
def sampleBOQItem : BOQItem :=
  { id := 7, header_id := 5, organization_id := 1, project_id := 1
  , parent_item_id := none, quantity := 2, rate := 3, budget_cost := 6
  , weight_out_of_10 := 1, percent_complete := 0, actual_cost := 0 }

/-- `sampleDB` extended with one BOQ header (id 5) for project 1 and one
BOQ item (id 7) under it. -/
def boqStoreDB : DB :=
  { sampleDB with
    boq_headers := [sampleBOQHeader]
  , boq_items := [sampleBOQItem] }

/-- C9 counterexample: the BOQ import path physically removes rows. On
`boqStoreDB` the item with id 7 exists; after `_get_or_create_header`
reuses the existing header, no row with id 7 remains in the store at all
— the BOQItem table (which has no `is_deleted` / `deleted_at` columns)
ends up empty, contradicting the claim that no operation ever physically
removes an entity row. -/
theorem c9_counterexample :
    (boqStoreDB.boq_items.any (fun i => i.id == 7)) = true ∧
    (((_get_or_create_header boqStoreDB 1 1 "Project BOQ" none none "UGX" 99).1).boq_items.any
      (fun i => i.id == 7)) = false ∧
    ((_get_or_create_header boqStoreDB 1 1 "Project BOQ" none none "UGX" 99).1).boq_items =
      [] :=
  ⟨rfl, rfl, rfl⟩

/-- Embeds `delete_task` (`app/api/v1/routes/tasks.py`): project
resolution, the `can_edit_tasks` capability, tenant-scoped lookup, then
soft delete (`is_deleted := true`, `deleted_at := now`). -/
def delete_task (db : DB) (org : Organization) (user : User)
    (project_id task_id now : Nat) : Except ApiError DB :=
  match get_project_or_404 db org.id project_id with
  | .error e => .error e
  | .ok project =>
    match ensure_project_permission db project user "can_edit_tasks" with
    | .error e => .error e
    | .ok _ =>
      match db.tasks.find? (fun t =>
          t.id == task_id && t.project_id == project_id &&
          t.organization_id == org.id && t.is_deleted == false) with
      | none => .error .notFound
      | some task =>
        let task' := { task with is_deleted := true, deleted_at := some now }
        .ok { db with
          tasks := db.tasks.map (fun t => if t.id == task.id then task' else t) }

/-- Embeds `delete_milestone` (`app/api/v1/routes/milestones.py`):
tenant-scoped lookup, then soft delete; like the risk routes it performs
no `ensure_project_permission` check. -/
def delete_milestone (db : DB) (org : Organization) (_user : User)
    (project_id milestone_id now : Nat) : Except ApiError DB :=
  match db.milestones.find? (fun m =>
      m.id == milestone_id && m.project_id == project_id &&
      m.organization_id == org.id && m.is_deleted == false) with
  | none => .error .notFound
  | some milestone =>
    let milestone' := { milestone with is_deleted := true, deleted_at := some now }
    .ok { db with
      milestones := db.milestones.map (fun m =>
        if m.id == milestone.id then milestone' else m) }

/-- Embeds `delete_document` (`app/api/v1/routes/documents.py`): project
resolution, the `can_upload_documents` capability, tenant-scoped lookup,
then soft delete; the storage blob is deliberately not removed. -/
def delete_document (db : DB) (org : Organization) (user : User)
    (project_id document_id now : Nat) : Except ApiError DB :=
  match get_project_or_404 db org.id project_id with
  | .error e => .error e
  | .ok project =>
    match ensure_project_permission db project user "can_upload_documents" with
    | .error e => .error e
    | .ok _ =>
      match db.documents.find? (fun d =>
          d.id == document_id && d.project_id == project_id &&
          d.organization_id == org.id && d.is_deleted == false) with
      | none => .error .notFound
      | some document =>
        let document' := { document with is_deleted := true, deleted_at := some now }
        .ok { db with
          documents := db.documents.map (fun d =>
            if d.id == document.id then document' else d) }

/-- The `if message.project_id:` permission block the message routes
repeat (`app/api/v1/routes/messages.py`): org-wide messages (no
project) pass; project messages resolve the project and require the
given capability. -/
def _message_project_check (db : DB) (org : Organization) (user : User)
    (project_id : Option Nat) (capability : String) : Except ApiError Unit :=
  match project_id with
  | none => .ok ()
  | some pid =>
    match get_project_or_404 db org.id pid with
    | .error e => .error e
    | .ok project =>
      match ensure_project_permission db project user capability with
      | .error e => .error e
      | .ok _ => .ok ()

/-- Embeds `delete_message` (`app/api/v1/routes/messages.py`):
org-scoped lookup (no project filter), the conditional project
`can_post_messages` check, then soft delete. -/
def delete_message (db : DB) (org : Organization) (user : User)
    (message_id now : Nat) : Except ApiError DB :=
  match db.messages.find? (fun m =>
      m.id == message_id && m.organization_id == org.id &&
      m.is_deleted == false) with
  | none => .error .notFound
  | some message =>
    match _message_project_check db org user message.project_id
        "can_post_messages" with
    | .error e => .error e
    | .ok _ =>
      let message' := { message with is_deleted := true, deleted_at := some now }
      .ok { db with
        messages := db.messages.map (fun m =>
          if m.id == message.id then message' else m) }

/-- Replacing, by key, the rows matching a row `a` of the list with `b`
preserves the length, puts `b` in the result, and leaves every row with
a different key untouched. -/
theorem map_replace_soft_delete {α : Type} (key : α → Nat) (l : List α)
    (a b : α) (hmem : a ∈ l) :
    (l.map (fun x => if key x == key a then b else x)).length = l.length ∧
    b ∈ l.map (fun x => if key x == key a then b else x) ∧
    ∀ x ∈ l, key x ≠ key a →
      x ∈ l.map (fun x => if key x == key a then b else x) := by
  refine ⟨by simp, ?_, ?_⟩
  · have hstep := List.mem_map_of_mem (fun x => if key x == key a then b else x) hmem
    rw [show (fun x => if key x == key a then b else x) a = b from by simp] at hstep
    exact hstep
  · intro x hx hne
    have hstep := List.mem_map_of_mem (fun x => if key x == key a then b else x) hx
    rw [show (fun x => if key x == key a then b else x) x = x from by
      simp [hne]] at hstep
    exact hstep

/-- C9 amended: every delete endpoint of the soft-deletable
project-scoped entities — Task, Expense, Risk, Milestone, Document,
Message — only soft-deletes: the row count is preserved, the target row
remains with `is_deleted = true` and `deleted_at = now()`, and every
other row is untouched. But Notification, BOQHeader and BOQItem carry no
soft-delete pair at all, and a BOQ re-import physically removes every
item of the previous header from the store. -/
theorem c9_soft_delete_except_boq
    (db : DB) (org : Organization) (user : User)
    (project : Project) (medit mupload mgr : Option ProjectMember)
    (project_id task_id milestone_id document_id message_id
      risk_id expense_id now : Nat)
    (title : String) (sd ed : Option Nat) (currency : String) (newId : Nat) :
    (get_project_or_404 db org.id project_id = .ok project →
      ensure_project_permission db project user "can_edit_tasks" = .ok medit →
      ∀ task : TaskRow,
      db.tasks.find? (fun t => t.id == task_id && t.project_id == project_id &&
        t.organization_id == org.id && t.is_deleted == false) = some task →
      delete_task db org user project_id task_id now =
        .ok { db with tasks := db.tasks.map (fun t =>
          if t.id == task.id then { task with is_deleted := true, deleted_at := some now }
          else t) } ∧
      (db.tasks.map (fun t =>
        if t.id == task.id then { task with is_deleted := true, deleted_at := some now }
        else t)).length = db.tasks.length ∧
      { task with is_deleted := true, deleted_at := some now } ∈
        db.tasks.map (fun t =>
          if t.id == task.id then { task with is_deleted := true, deleted_at := some now }
          else t) ∧
      (∀ t ∈ db.tasks, t.id ≠ task.id →
        t ∈ db.tasks.map (fun t =>
          if t.id == task.id then { task with is_deleted := true, deleted_at := some now }
          else t))) ∧
    (∀ milestone : Milestone,
      db.milestones.find? (fun m => m.id == milestone_id &&
        m.project_id == project_id && m.organization_id == org.id &&
        m.is_deleted == false) = some milestone →
      delete_milestone db org user project_id milestone_id now =
        .ok { db with milestones := db.milestones.map (fun m =>
          if m.id == milestone.id then
            { milestone with is_deleted := true, deleted_at := some now }
          else m) } ∧
      (db.milestones.map (fun m =>
        if m.id == milestone.id then
          { milestone with is_deleted := true, deleted_at := some now }
        else m)).length = db.milestones.length ∧
      { milestone with is_deleted := true, deleted_at := some now } ∈
        db.milestones.map (fun m =>
          if m.id == milestone.id then
            { milestone with is_deleted := true, deleted_at := some now }
          else m) ∧
      (∀ m ∈ db.milestones, m.id ≠ milestone.id →
        m ∈ db.milestones.map (fun m =>
          if m.id == milestone.id then
            { milestone with is_deleted := true, deleted_at := some now }
          else m))) ∧
    (get_project_or_404 db org.id project_id = .ok project →
      ensure_project_permission db project user "can_upload_documents" = .ok mupload →
      ∀ document : Document,
      db.documents.find? (fun d => d.id == document_id &&
        d.project_id == project_id && d.organization_id == org.id &&
        d.is_deleted == false) = some document →
      delete_document db org user project_id document_id now =
        .ok { db with documents := db.documents.map (fun d =>
          if d.id == document.id then
            { document with is_deleted := true, deleted_at := some now }
          else d) } ∧
      (db.documents.map (fun d =>
        if d.id == document.id then
          { document with is_deleted := true, deleted_at := some now }
        else d)).length = db.documents.length ∧
      { document with is_deleted := true, deleted_at := some now } ∈
        db.documents.map (fun d =>
          if d.id == document.id then
            { document with is_deleted := true, deleted_at := some now }
          else d) ∧
      (∀ d ∈ db.documents, d.id ≠ document.id →
        d ∈ db.documents.map (fun d =>
          if d.id == document.id then
            { document with is_deleted := true, deleted_at := some now }
          else d))) ∧
    (∀ message : Message,
      db.messages.find? (fun m => m.id == message_id &&
        m.organization_id == org.id && m.is_deleted == false) = some message →
      _message_project_check db org user message.project_id "can_post_messages" =
        .ok () →
      delete_message db org user message_id now =
        .ok { db with messages := db.messages.map (fun m =>
          if m.id == message.id then
            { message with is_deleted := true, deleted_at := some now }
          else m) } ∧
      (db.messages.map (fun m =>
        if m.id == message.id then
          { message with is_deleted := true, deleted_at := some now }
        else m)).length = db.messages.length ∧
      { message with is_deleted := true, deleted_at := some now } ∈
        db.messages.map (fun m =>
          if m.id == message.id then
            { message with is_deleted := true, deleted_at := some now }
          else m) ∧
      (∀ m ∈ db.messages, m.id ≠ message.id →
        m ∈ db.messages.map (fun m =>
          if m.id == message.id then
            { message with is_deleted := true, deleted_at := some now }
          else m))) ∧
    (∀ risk : Risk,
      db.risks.find? (fun r => r.id == risk_id && r.project_id == project_id &&
        r.organization_id == org.id && r.is_deleted == false) = some risk →
      delete_risk db org user project_id risk_id now =
        .ok { db with risks := db.risks.map (fun r =>
          if r.id == risk.id then { risk with is_deleted := true, deleted_at := some now }
          else r) } ∧
      (db.risks.map (fun r =>
        if r.id == risk.id then { risk with is_deleted := true, deleted_at := some now }
        else r)).length = db.risks.length ∧
      { risk with is_deleted := true, deleted_at := some now } ∈
        db.risks.map (fun r =>
          if r.id == risk.id then { risk with is_deleted := true, deleted_at := some now }
          else r) ∧
      (∀ r ∈ db.risks, r.id ≠ risk.id →
        r ∈ db.risks.map (fun r =>
          if r.id == risk.id then { risk with is_deleted := true, deleted_at := some now }
          else r))) ∧
    (get_project_or_404 db org.id project_id = .ok project →
      ensure_project_permission db project user "can_manage_expenses" = .ok mgr →
      ∀ expense : Expense,
      findExpense db org.id project_id expense_id = some expense →
      delete_expense db org user project_id expense_id now =
        .ok (commitExpense db { expense with is_deleted := true, deleted_at := some now }) ∧
      (commitExpense db { expense with is_deleted := true, deleted_at := some now }).expenses.length =
        db.expenses.length ∧
      { expense with is_deleted := true, deleted_at := some now } ∈
        (commitExpense db { expense with is_deleted := true, deleted_at := some now }).expenses ∧
      (∀ e ∈ db.expenses, e.id ≠ expense.id →
        e ∈ (commitExpense db { expense with is_deleted := true, deleted_at := some now }).expenses)) ∧
    (∀ header : BOQHeader,
      db.boq_headers.find? (fun h => h.organization_id == org.id &&
        h.project_id == project_id) = some header →
      ∀ i ∈ db.boq_items, i.header_id = header.id →
        i ∉ ((_get_or_create_header db org.id project_id title sd ed currency newId).1).boq_items) := by
  refine ⟨?_, ?_, ?_, ?_, ?_, ?_, ?_⟩
  · intro hproj hperm task hfind
    have hfacts := map_replace_soft_delete (fun t : TaskRow => t.id) db.tasks task
      { task with is_deleted := true, deleted_at := some now }
      (List.mem_of_find?_eq_some hfind)
    exact ⟨by simp only [delete_task, hproj, hperm, hfind],
      hfacts.1, hfacts.2.1, hfacts.2.2⟩
  · intro milestone hfind
    have hfacts := map_replace_soft_delete (fun m : Milestone => m.id) db.milestones
      milestone { milestone with is_deleted := true, deleted_at := some now }
      (List.mem_of_find?_eq_some hfind)
    exact ⟨by simp only [delete_milestone, hfind],
      hfacts.1, hfacts.2.1, hfacts.2.2⟩
  · intro hproj hperm document hfind
    have hfacts := map_replace_soft_delete (fun d : Document => d.id) db.documents
      document { document with is_deleted := true, deleted_at := some now }
      (List.mem_of_find?_eq_some hfind)
    exact ⟨by simp only [delete_document, hproj, hperm, hfind],
      hfacts.1, hfacts.2.1, hfacts.2.2⟩
  · intro message hfind hchk
    have hfacts := map_replace_soft_delete (fun m : Message => m.id) db.messages
      message { message with is_deleted := true, deleted_at := some now }
      (List.mem_of_find?_eq_some hfind)
    exact ⟨by simp only [delete_message, hfind, hchk],
      hfacts.1, hfacts.2.1, hfacts.2.2⟩
  · intro risk hfind
    have hfacts := map_replace_soft_delete (fun r : Risk => r.id) db.risks risk
      { risk with is_deleted := true, deleted_at := some now }
      (List.mem_of_find?_eq_some hfind)
    exact ⟨by simp only [delete_risk, hfind],
      hfacts.1, hfacts.2.1, hfacts.2.2⟩
  · intro hproj hperm expense hfind
    have hmem := List.mem_of_find?_eq_some hfind
    have hfacts := map_replace_soft_delete (fun e : Expense => e.id) db.expenses
      expense { expense with is_deleted := true, deleted_at := some now } hmem
    exact ⟨by simp only [delete_expense, hproj, hperm, hfind],
      hfacts.1, hfacts.2.1, hfacts.2.2⟩
  · intro header hfindh i hi hhid hmem
    rw [show ((_get_or_create_header db org.id project_id title sd ed currency newId).1).boq_items =
        db.boq_items.filter (fun j => !(j.header_id == header.id)) from by
      simp [_get_or_create_header, hfindh]] at hmem
    rw [List.mem_filter] at hmem
    simp [hhid] at hmem

/-- A pending task (id 21) on project 1. -/
def sampleTask : TaskRow :=
  { id := 21, organization_id := 1, project_id := 1, name := "dig"
  , description := none, status := .PENDING, priority := .MEDIUM
  , assignee_id := none, reporter_id := some 1, start_date := none
  , due_date := 30, progress := 0, dependencies := []
  , is_deleted := false, deleted_at := none }

/-- A pending milestone (id 22) on project 1. -/
def sampleMilestone : Milestone :=
  { id := 22, organization_id := 1, project_id := 1, name := "phase 1"
  , description := none, target_date := 60, actual_date := none
  , status := .PENDING, completion_percentage := 0, dependencies := []
  , is_deleted := false, deleted_at := none }

/-- An org-wide message (id 24, no project) sent by user 1. -/
def sampleMessage : Message :=
  { id := 24, organization_id := 1, project_id := none, task_id := none
  , sender_id := some 1, content := "hi", message_type := "text"
  , is_read := false, attachments := []
  , is_deleted := false, deleted_at := none }

/-- `sampleDB` extended with one task, milestone, message and risk. -/
def softDeleteDB : DB :=
  { sampleDB with
    tasks := [sampleTask], milestones := [sampleMilestone]
  , messages := [sampleMessage], risks := [sampleRisk] }

/-- C9 amended witness: on `softDeleteDB`, the task, milestone, message
and risk deletes each return the store with the row soft-deleted in
place (the soft-deleted milestone row stays present); on `boqStoreDB`,
re-importing removes item 7 from the store. -/
theorem c9_witness :
    delete_task softDeleteDB sampleOrg sampleManager 1 21 777 =
      .ok { softDeleteDB with tasks := softDeleteDB.tasks.map (fun t =>
        if t.id == sampleTask.id then
          { sampleTask with is_deleted := true, deleted_at := some 777 } else t) } ∧
    { sampleMilestone with is_deleted := true, deleted_at := some 777 } ∈
      softDeleteDB.milestones.map (fun m =>
        if m.id == sampleMilestone.id then
          { sampleMilestone with is_deleted := true, deleted_at := some 777 } else m) ∧
    delete_message softDeleteDB sampleOrg sampleManager 24 777 =
      .ok { softDeleteDB with messages := softDeleteDB.messages.map (fun m =>
        if m.id == sampleMessage.id then
          { sampleMessage with is_deleted := true, deleted_at := some 777 } else m) } ∧
    delete_risk softDeleteDB sampleOrg sampleOutsider 1 9 777 =
      .ok { softDeleteDB with risks := softDeleteDB.risks.map (fun r =>
        if r.id == sampleRisk.id then
          { sampleRisk with is_deleted := true, deleted_at := some 777 } else r) } ∧
    sampleBOQItem ∉
      ((_get_or_create_header boqStoreDB sampleOrg.id 1 "Project BOQ" none none
        "UGX" 99).1).boq_items :=
  ⟨((c9_soft_delete_except_boq softDeleteDB sampleOrg sampleManager sampleProject
      none none none 1 21 22 23 24 9 1 777 "Project BOQ" none none "UGX" 99).1
      rfl rfl sampleTask rfl).1,
   ((c9_soft_delete_except_boq softDeleteDB sampleOrg sampleManager sampleProject
      none none none 1 21 22 23 24 9 1 777 "Project BOQ" none none "UGX" 99).2.1
      sampleMilestone rfl).2.2.1,
   ((c9_soft_delete_except_boq softDeleteDB sampleOrg sampleManager sampleProject
      none none none 1 21 22 23 24 9 1 777 "Project BOQ" none none "UGX" 99).2.2.2.1
      sampleMessage rfl rfl).1,
   ((c9_soft_delete_except_boq softDeleteDB sampleOrg sampleOutsider sampleProject
      none none none 1 21 22 23 24 9 1 777 "Project BOQ" none none "UGX" 99).2.2.2.2.1
      sampleRisk rfl).1,
   (c9_soft_delete_except_boq boqStoreDB sampleOrg sampleOutsider sampleProject
      none none none 1 21 22 23 24 9 1 777 "Project BOQ" none none "UGX" 99).2.2.2.2.2.2
      sampleBOQHeader rfl sampleBOQItem (List.mem_singleton.mpr rfl) rfl⟩

/-- Embeds `create_refresh_token` (`app/core/security.py`): the encoded
payload carries `sub`, `exp`, `iat` and `type = "refresh"` — note that no
`jti` claim is ever added. -/
def create_refresh_token (sub : Option Nat) (exp : Nat) : TokenPayload :=
  { sub := sub, jti := none, type := "refresh", exp := some exp }

/-- Embeds `_revoke_token_if_valid` (`app/api/v1/routes/auth.py`):
decode, verify the expected type, extract a (Python-truthy, so
non-empty) `jti`, skip if already revoked, else insert a `RevokedToken`
row; every failure is swallowed and reported as `false` (nothing
processed). The `_epoch_to_datetime` fallback to `utcnow()` for a
missing `exp` is modelled as `none`; the stored expiry is never read by
the embedded operations. -/
def _revoke_token_if_valid (db : DB) (token : Option Token)
    (expected_type : Option String) : DB × Bool :=
  match token with
  | none => (db, false)
  | some t =>
    match decode_token t with
    | .error _ => (db, false)
    | .ok payload =>
      let type_ok : Bool := match expected_type with
        | some et => payload.type == et
        | none => true
      if type_ok == false then (db, false)
      else
        let token_type := expected_type.getD payload.type
        match payload.jti with
        | none => (db, false)
        | some jti =>
          if jti.isEmpty then (db, false)
          else if (db.revoked_tokens.find? (fun r => r.jti == jti)).isSome then
            (db, false)
          else
            ({ db with revoked_tokens := db.revoked_tokens ++
                [{ jti := jti, token_type := token_type
                 , user_id := payload.sub, expires_at := payload.exp }] }, true)

/-- Embeds `logout` (`app/api/v1/routes/auth.py`): revoke the bearer
access token, then the cookie-carried refresh token; the Bool records
whether anything was committed. -/
def logout (db : DB) (authorization : Option Token)
    (refresh_cookie : Option Token) : DB × Bool :=
  let step1 := _revoke_token_if_valid db authorization (some "access")
  let step2 := _revoke_token_if_valid step1.1 refresh_cookie (some "refresh")
  (step2.1, step1.2 || step2.2)

/-- Embeds the `refresh_token` route (`app/api/v1/routes/auth.py`).
Every failure inside the handler's `try` block — expired or malformed
credential, wrong declared type, missing or empty `jti`, revoked `jti`,
missing subject, unknown / inactive / soft-deleted user (the
`InvalidCredentialsError`) — reaches the final `except` and surfaces as
`InvalidTokenError`. On success a fresh access token is issued for the
user, modelled by the user id. -/
def refresh_token_route (db : DB) (refresh_token : Option Token) :
    Except ApiError Nat :=
  match refresh_token with
  | none => .error .invalidToken
  | some t =>
    match decode_token t with
    | .error _ => .error .invalidToken
    | .ok payload =>
      if payload.type != "refresh" then .error .invalidToken
      else
        match payload.jti with
        | none => .error .invalidToken
        | some jti =>
          if jti.isEmpty then .error .invalidToken
          else if (db.revoked_tokens.find? (fun r => r.jti == jti)).isSome then
            .error .invalidToken
          else
            match payload.sub with
            | none => .error .invalidToken
            | some user_id =>
              match db.users.find? (fun u =>
                  u.id == user_id && u.is_active == true &&
                  u.is_deleted == false) with
              | none => .error .invalidToken
              | some user => .ok user.id

/-- Once `_revoke_token_if_valid` reports a refresh token processed (its
`jti` recorded), a refresh attempt with the same token against the
resulting store fails `InvalidToken`. -/
theorem revoked_refresh_fails (db : DB) (t : Token)
    (h : (_revoke_token_if_valid db (some t) (some "refresh")).2 = true) :
    refresh_token_route (_revoke_token_if_valid db (some t) (some "refresh")).1
      (some t) = .error .invalidToken := by
  cases t with
  | expired => exact absurd h (by simp [_revoke_token_if_valid, decode_token])
  | malformed => exact absurd h (by simp [_revoke_token_if_valid, decode_token])
  | valid payload =>
    by_cases htype : payload.type = "refresh"
    case neg =>
      exact absurd h (by simp [_revoke_token_if_valid, decode_token, htype])
    case pos =>
      cases hjti : payload.jti with
      | none =>
        exact absurd h
          (by simp [_revoke_token_if_valid, decode_token, htype, hjti])
      | some jti =>
        by_cases hempty : jti.isEmpty = true
        case pos =>
          exact absurd h
            (by simp [_revoke_token_if_valid, decode_token, htype, hjti, hempty])
        case neg =>
          by_cases hrev : (db.revoked_tokens.find? (fun r => r.jti == jti)).isSome = true
          case pos =>
            exact absurd h
              (by simp [_revoke_token_if_valid, decode_token, htype, hjti, hempty, hrev])
          case neg =>
            have hres : (_revoke_token_if_valid db (some (.valid payload))
                (some "refresh")).1 =
                { db with revoked_tokens := db.revoked_tokens ++
                  [{ jti := jti, token_type := "refresh"
                   , user_id := payload.sub, expires_at := payload.exp }] } := by
              simp [_revoke_token_if_valid, decode_token, htype, hjti, hempty, hrev]
            rw [hres]
            have hfound : (((db.revoked_tokens ++
                [{ jti := jti, token_type := "refresh"
                 , user_id := payload.sub, expires_at := payload.exp }]) :
                List RevokedToken).find? (fun r => r.jti == jti)).isSome = true := by
              rw [List.find?_isSome]
              exact ⟨{ jti := jti, token_type := "refresh"
                     , user_id := payload.sub, expires_at := payload.exp },
                by simp, by simp⟩
            simp [refresh_token_route, decode_token, htype, hjti, hempty, hfound]

/-- C7: after a logout whose refresh-revocation step processed token t
(recording its `jti`), refreshing with t fails `InvalidToken`, even
though t still decodes with a valid signature and expiry. -/
theorem c7_revocation_finality (db : DB) (authorization : Option Token) (t : Token)
    (hprocessed : (_revoke_token_if_valid
        (_revoke_token_if_valid db authorization (some "access")).1
        (some t) (some "refresh")).2 = true) :
    (logout db authorization (some t)).1 =
      (_revoke_token_if_valid
        (_revoke_token_if_valid db authorization (some "access")).1
        (some t) (some "refresh")).1 ∧
    refresh_token_route (logout db authorization (some t)).1 (some t) =
      .error .invalidToken :=
  ⟨rfl, revoked_refresh_fails _ t hprocessed⟩

/-- A decodable, unexpired refresh token carrying a `jti`. -/
def sampleRefreshToken : Token :=
  .valid { sub := some 1, jti := some "jti-r1", type := "refresh", exp := some 999 }

/-- C7 witness: on `sampleDB`, logging out with `sampleRefreshToken` in
the cookie revokes it, and the subsequent refresh attempt with the same
token fails `InvalidToken`. -/
theorem c7_witness :
    (logout sampleDB none (some sampleRefreshToken)).1 =
      (_revoke_token_if_valid
        (_revoke_token_if_valid sampleDB none (some "access")).1
        (some sampleRefreshToken) (some "refresh")).1 ∧
    refresh_token_route (logout sampleDB none (some sampleRefreshToken)).1
      (some sampleRefreshToken) = .error .invalidToken :=
  c7_revocation_finality sampleDB none sampleRefreshToken rfl

/-- Default of the `ALLOW_ANY_LOGIN` setting (`app/core/config.py`,
line 42). -/
def ALLOW_ANY_LOGIN_default : Bool := false

/-- The all-capabilities `ProjectMember` row open login creates
(`app/api/v1/routes/auth.py`, lines 136-150 and 170-184). -/
def fullAccessMember (project_id user_id : Nat) : ProjectMember :=
  { project_id := project_id, user_id := user_id
  , role_in_project := some "Member"
  , can_view_project := true, can_post_messages := true
  , can_upload_documents := true, can_edit_tasks := true
  , can_manage_milestones := true, can_manage_risks := true
  , can_manage_expenses := true, can_approve_expenses := true }

/-- Embeds the `login` route (`app/api/v1/routes/auth.py`). bcrypt
verification and hashing are parameters; token issuance, cookies,
`last_login` and the response body are not modelled, so success returns
the final store and the logged-in user. With `allow_any_login` false,
a missing (or soft-deleted) user, an inactive user, or a failed password
check raises `InvalidCredentialsError`; with it true, a missing user is
auto-created active (with id `newUserId`) and enrolled in the first
active organization and all its non-deleted projects with every
capability flag true, while an existing user is re-activated if inactive
and back-filled with any missing project memberships. -/
def login (verify_password : String → String → Bool)
    (hash_password : String → String) (allow_any_login : Bool) (db : DB)
    (email password : String) (newUserId : Nat) :
    Except ApiError (DB × User) :=
  let user? := db.users.find? (fun u =>
    u.email == email && u.is_deleted == false)
  if allow_any_login then
    match user? with
    | none =>
      let user : User :=
        { id := newUserId, email := email
        , password_hash := hash_password password
        , is_active := true, is_deleted := false }
      let db1 : DB := { db with users := db.users ++ [user] }
      match db1.organizations.find? (fun o => o.is_active == true) with
      | none => .ok (db1, user)
      | some org =>
        let member : OrganizationMember :=
          { organization_id := org.id, user_id := user.id
          , org_role := .MEMBER, status := .ACTIVE }
        let db2 : DB := { db1 with
          organization_members := db1.organization_members ++ [member] }
        let projects := db2.projects.filter (fun p =>
          p.organization_id == org.id && p.is_deleted == false)
        let db3 : DB := { db2 with
          project_members := db2.project_members ++
            projects.map (fun p => fullAccessMember p.id user.id) }
        .ok (db3, user)
    | some user0 =>
      let user := if user0.is_active then user0
        else { user0 with is_active := true }
      let db1 : DB := { db with
        users := db.users.map (fun u => if u.id == user.id then user else u) }
      match db1.organizations.find? (fun o => o.is_active == true) with
      | none => .ok (db1, user)
      | some org =>
        let projects := db1.projects.filter (fun p =>
          p.organization_id == org.id && p.is_deleted == false)
        let missing := projects.filter (fun p =>
          (db1.project_members.find? (fun m =>
            m.project_id == p.id && m.user_id == user.id)).isNone)
        let db2 : DB := { db1 with
          project_members := db1.project_members ++
            missing.map (fun p => fullAccessMember p.id user.id) }
        .ok (db2, user)
  else
    match user? with
    | none => .error .invalidCredentials
    | some user =>
      if user.is_active == false || verify_password password user.password_hash == false then
        .error .invalidCredentials
      else .ok (db, user)

/-- C10: login raises `InvalidCredentials` iff `ALLOW_ANY_LOGIN` is
false (its default) and the user is missing / soft-deleted, inactive, or
fails password verification; with the flag true, login always succeeds —
a missing user is auto-created active and enrolled as an Active member
of the first active organization with the all-capabilities membership on
each of its non-deleted projects, and an existing inactive user is
re-activated. -/
theorem c10_login_modes
    (verify_password : String → String → Bool) (hash_password : String → String)
    (allow_any_login : Bool) (db : DB) (email password : String) (newUserId : Nat) :
    ALLOW_ANY_LOGIN_default = false ∧
    (∀ pid uid : Nat,
      (fullAccessMember pid uid).can_view_project = true ∧
      (fullAccessMember pid uid).can_post_messages = true ∧
      (fullAccessMember pid uid).can_upload_documents = true ∧
      (fullAccessMember pid uid).can_edit_tasks = true ∧
      (fullAccessMember pid uid).can_manage_milestones = true ∧
      (fullAccessMember pid uid).can_manage_risks = true ∧
      (fullAccessMember pid uid).can_manage_expenses = true ∧
      (fullAccessMember pid uid).can_approve_expenses = true) ∧
    (login verify_password hash_password allow_any_login db email password newUserId =
        .error .invalidCredentials ↔
      (allow_any_login = false ∧
        ∀ u : User,
          db.users.find? (fun u => u.email == email && u.is_deleted == false) = some u →
          (u.is_active = false ∨ verify_password password u.password_hash = false))) ∧
    (allow_any_login = true →
      db.users.find? (fun u => u.email == email && u.is_deleted == false) = none →
      ∃ db' user,
        login verify_password hash_password allow_any_login db email password newUserId =
          .ok (db', user) ∧
        user.email = email ∧ user.is_active = true ∧ user ∈ db'.users ∧
        (∀ org : Organization,
          db.organizations.find? (fun o => o.is_active == true) = some org →
          (∃ m ∈ db'.organization_members, m.organization_id = org.id ∧
            m.user_id = user.id ∧ m.status = MembershipStatus.ACTIVE) ∧
          (∀ p ∈ db.projects, p.organization_id = org.id → p.is_deleted = false →
            fullAccessMember p.id user.id ∈ db'.project_members))) ∧
    (allow_any_login = true →
      ∀ u : User,
        db.users.find? (fun u => u.email == email && u.is_deleted == false) = some u →
        u.is_active = false →
        ∃ db' user',
          login verify_password hash_password allow_any_login db email password newUserId =
            .ok (db', user') ∧
          user'.id = u.id ∧ user'.is_active = true) := by
  refine ⟨rfl, fun pid uid => ⟨rfl, rfl, rfl, rfl, rfl, rfl, rfl, rfl⟩, ?_, ?_, ?_⟩
  · cases allow_any_login with
    | true =>
      constructor
      · intro hlog
        exfalso
        simp only [login] at hlog
        cases hfind : db.users.find? (fun u =>
            u.email == email && u.is_deleted == false) with
        | none =>
          rw [hfind] at hlog
          cases horg : db.organizations.find? (fun o => o.is_active == true) with
          | none => rw [horg] at hlog; simp at hlog
          | some org => rw [horg] at hlog; simp at hlog
        | some u0 =>
          rw [hfind] at hlog
          cases horg : db.organizations.find? (fun o => o.is_active == true) with
          | none => rw [horg] at hlog; simp at hlog
          | some org => rw [horg] at hlog; simp at hlog
      · rintro ⟨hfalse, -⟩
        exact absurd hfalse (by simp)
    | false =>
      constructor
      · intro hlog
        refine ⟨rfl, ?_⟩
        intro u hu
        by_contra hcon
        push_neg at hcon
        obtain ⟨hact, hver⟩ := hcon
        simp only [Bool.not_eq_false] at hact hver
        simp only [login] at hlog
        rw [hu] at hlog
        simp [hact, hver] at hlog
      · rintro ⟨-, hcond⟩
        simp only [login]
        cases hfind : db.users.find? (fun u =>
            u.email == email && u.is_deleted == false) with
        | none => simp
        | some u =>
          cases hcond u hfind with
          | inl h => simp [h]
          | inr h => simp [h]
  · intro hallow hfind
    subst hallow
    cases horg : db.organizations.find? (fun o => o.is_active == true) with
    | none =>
      refine ⟨{ db with users := db.users ++
          [{ id := newUserId, email := email
           , password_hash := hash_password password
           , is_active := true, is_deleted := false }] },
        { id := newUserId, email := email
        , password_hash := hash_password password
        , is_active := true, is_deleted := false }, ?_, rfl, rfl, by simp, ?_⟩
      · simp only [login]
        rw [hfind, horg]
        simp
      · intro org horg'
        exact absurd horg' (by simp)
    | some org =>
      refine ⟨{ db with
          users := db.users ++
            [{ id := newUserId, email := email
             , password_hash := hash_password password
             , is_active := true, is_deleted := false }]
        , organization_members := db.organization_members ++
            [{ organization_id := org.id, user_id := newUserId
             , org_role := .MEMBER, status := .ACTIVE }]
        , project_members := db.project_members ++
            (db.projects.filter (fun p =>
              p.organization_id == org.id && p.is_deleted == false)).map
              (fun p => fullAccessMember p.id newUserId) },
        { id := newUserId, email := email
        , password_hash := hash_password password
        , is_active := true, is_deleted := false }, ?_, rfl, rfl, by simp, ?_⟩
      · simp only [login]
        rw [hfind, horg]
        simp
      · intro org' horg'
        obtain rfl : org = org' := by injection horg'
        constructor
        · exact ⟨{ organization_id := org.id, user_id := newUserId
                 , org_role := .MEMBER, status := .ACTIVE }, by simp, rfl, rfl, rfl⟩
        · intro p hp hporg hpdel
          apply List.mem_append_right
          apply List.mem_map_of_mem
          exact List.mem_filter.mpr ⟨hp, by simp [hporg, hpdel]⟩
  · intro hallow u hfind hinact
    subst hallow
    cases horg : db.organizations.find? (fun o => o.is_active == true) with
    | none =>
      refine ⟨{ db with users := db.users.map (fun x =>
          if x.id == u.id then { u with is_active := true } else x) },
        { u with is_active := true }, ?_, rfl, rfl⟩
      simp only [login]
      rw [hfind, horg]
      simp [hinact]
    | some org =>
      refine ⟨{ db with
          users := db.users.map (fun x =>
            if x.id == u.id then { u with is_active := true } else x)
        , project_members := db.project_members ++
            ((db.projects.filter (fun p =>
                p.organization_id == org.id && p.is_deleted == false)).filter
              (fun p => (db.project_members.find? (fun m =>
                m.project_id == p.id && m.user_id == u.id)).isNone)).map
              (fun p => fullAccessMember p.id u.id) },
        { u with is_active := true }, ?_, rfl, rfl⟩
      simp only [login]
      rw [hfind, horg]
      simp [hinact]

/-- C10 witness: with the flag false a wrong password yields
`InvalidCredentials`; with the flag true an unknown email logs in,
auto-created active and enrolled with full capabilities on project 1 of
organization 1. -/
theorem c10_witness :
    login (fun p h => p == h) (fun p => p) false sampleDB "m@x.io" "wrong" 42 =
      .error .invalidCredentials ∧
    (∃ db' user,
      login (fun p h => p == h) (fun p => p) true sampleDB "new@x.io" "pw" 42 =
        .ok (db', user) ∧
      user.email = "new@x.io" ∧ user.is_active = true ∧ user ∈ db'.users ∧
      (∀ org : Organization,
        sampleDB.organizations.find? (fun o => o.is_active == true) = some org →
        (∃ m ∈ db'.organization_members, m.organization_id = org.id ∧
          m.user_id = user.id ∧ m.status = MembershipStatus.ACTIVE) ∧
        (∀ p ∈ sampleDB.projects, p.organization_id = org.id → p.is_deleted = false →
          fullAccessMember p.id user.id ∈ db'.project_members))) :=
  ⟨(c10_login_modes (fun p h => p == h) (fun p => p) false sampleDB
      "m@x.io" "wrong" 42).2.2.1.mpr
    ⟨rfl, by
      intro u hu
      have hu' : some sampleManager = some u := hu
      obtain rfl := Option.some.inj hu'
      exact Or.inr rfl⟩,
   (c10_login_modes (fun p h => p == h) (fun p => p) true sampleDB
      "new@x.io" "pw" 42).2.2.2.1 rfl rfl⟩
